import Mathlib

set_option maxRecDepth 40000

/-
Shallow embedding of the Minoca OS page cache (src/kernel/io/pagecach.c).

Modelling conventions:
* Sequential semantics: lock acquire/release are no-ops, and the atomic
  read-modify-write operations (RtlAtomicOr32 / RtlAtomicAnd32 / RtlAtomicAdd)
  become a read of the old value followed by a record update.
* The 32-bit `Flags` bitfield is decomposed into its three defined bits
  (PAGE_CACHE_ENTRY_FLAG_DIRTY = 0x1, PAGE_CACHE_ENTRY_FLAG_PAGE_OWNER = 0x2,
  PAGE_CACHE_ENTRY_FLAG_MAPPED = 0x4) as three Bool fields.
* Page cache entries are identified by natural-number ids; the global state
  maps ids to entry records.  The intrusive `ListEntry` membership
  (`ListEntry.Next == NULL` marks a detached entry) is modelled by an
  `onList` tag on the entry together with explicit id lists in the state.
* Routines that live outside src/kernel/io/pagecach.c (the file-object layer,
  the MM layer, the non-cached write path) are modelled from the spec as
  state flags or oracle parameters; each such definition says so in its
  doc comment.
-/

namespace PageCache

/-- KSTATUS values that the page cache code in pagecach.c produces or
propagates: STATUS_SUCCESS, STATUS_TRY_AGAIN, STATUS_DATA_LENGTH_MISMATCH,
and arbitrary transport errors from the non-cached write path. -/
inductive KStatus where
  | success
  | tryAgain
  | dataLengthMismatch
  | ioError (code : Nat)
  deriving DecidableEq

/-- The KSUCCESS test: only STATUS_SUCCESS counts as success. -/
def kSuccess : KStatus → Bool
  | KStatus.success => true
  | _ => false

/-- Which intrusive list an entry's `ListEntry` is currently on.
`detached` models `ListEntry.Next == NULL`. -/
inductive PCList where
  | detached
  | clean
  | cleanUnmapped
  | removal
  | fileDirtyList
  deriving DecidableEq

/-- IO_OBJECT_TYPE, restricted to the cases the linking code distinguishes. -/
inductive IoObjectType where
  | regularFile
  | symbolicLink
  | sharedMemoryObject
  | blockDevice
  | other
  deriving DecidableEq

/-- Modelled from the spec: the `IO_IS_CACHEABLE_FILE` test lives in iop.h
(not under src/); per spec section 4.3 the cacheable file kinds are regular
file, symbolic link and shared-memory object. -/
def IO_IS_CACHEABLE_FILE : IoObjectType → Bool
  | IoObjectType.regularFile => true
  | IoObjectType.symbolicLink => true
  | IoObjectType.sharedMemoryObject => true
  | _ => false

/-- One PAGE_CACHE_ENTRY (struct _PAGE_CACHE_ENTRY in pagecach.c). -/
structure PCEntry where
  fileObject : Nat
  offset : Nat
  physicalAddress : Nat
  virtualAddress : Option Nat
  backingEntry : Option Nat
  referenceCount : Nat
  flagDirty : Bool
  flagPageOwner : Bool
  flagMapped : Bool
  onList : PCList
  inTree : Bool
  deriving DecidableEq

/-- The global page cache state touched by the dirty tracker, the VA setter
and the linking protocol: the entry store, the global clean lists, the
per-file-object dirty page lists, the per-file-object dirty-data flag
(FILE_OBJECT_FLAG_DIRTY_DATA, owned by the file-object layer), the
per-file-object I/O type, and the global counters. -/
structure PCState where
  entries : Nat → PCEntry
  cleanList : List Nat
  cleanUnmappedList : List Nat
  fileDirtyPages : Nat → List Nat
  fileObjectDirty : Nat → Bool
  fileType : Nat → IoObjectType
  dirtyPageCount : Nat
  mappedPageCount : Nat
  mappedDirtyPageCount : Nat
  physicalPageCount : Nat

/-- Replace the entry stored at id `i`. -/
def setEntry (s : PCState) (i : Nat) (e : PCEntry) : PCState :=
  { s with entries := fun j => if j = i then e else s.entries j }

/-- LIST_REMOVE followed by `ListEntry.Next = NULL`: take entry `i` off
whichever list its `onList` tag says it is on. -/
def listRemove (s : PCState) (i : Nat) : PCState :=
  let e := s.entries i
  let s1 :=
    match e.onList with
    | PCList.clean => { s with cleanList := s.cleanList.erase i }
    | PCList.cleanUnmapped =>
        { s with cleanUnmappedList := s.cleanUnmappedList.erase i }
    | PCList.fileDirtyList =>
        { s with fileDirtyPages := fun f =>
            if f = e.fileObject then (s.fileDirtyPages f).erase i
            else s.fileDirtyPages f }
    | _ => s
  setEntry s1 i { e with onList := PCList.detached }

/-- INSERT_BEFORE(&entry->ListEntry, &entry->FileObject->DirtyPageList):
append entry `i` at the tail of its file object's dirty page list. -/
def insertFileDirtyTail (s : PCState) (i : Nat) : PCState :=
  let e := s.entries i
  let s1 := { s with fileDirtyPages := fun f =>
      if f = e.fileObject then s.fileDirtyPages f ++ [i]
      else s.fileDirtyPages f }
  setEntry s1 i { e with onList := PCList.fileDirtyList }

/-- INSERT_BEFORE(&entry->ListEntry, &IoPageCacheCleanList): append entry `i`
at the tail of the global clean LRU list. -/
def insertCleanTail (s : PCState) (i : Nat) : PCState :=
  let e := s.entries i
  let s1 := { s with cleanList := s.cleanList ++ [i] }
  setEntry s1 i { e with onList := PCList.clean }

/-- Modelled from the spec: `IopMarkFileObjectDirty` lives in the file-object
layer (not under src/); per spec section 4.4 it signals the file object as
dirty to the VFS, which we record as the per-file dirty-data flag. -/
def IopMarkFileObjectDirty (s : PCState) (fileObject : Nat) : PCState :=
  { s with fileObjectDirty := fun f =>
      if f = fileObject then true else s.fileObjectDirty f }

/-- IopMarkPageCacheEntryDirty (pagecach.c lines 2511-2614).  The file object
lock is already held.  Redirects to the backing entry when the given entry is
not the page owner, exits quickly if the target is already dirty, then
performs the atomic DIRTY 0-to-1 transition with counter accounting, moves
the target from any clean list to the tail of its file's dirty page list and
signals the file object as dirty. -/
def IopMarkPageCacheEntryDirty (s : PCState) (eid : Nat) : Bool × PCState :=
  let e := s.entries eid
  let dirtyId := if e.flagPageOwner then eid else e.backingEntry.getD eid
  let d := s.entries dirtyId
  if d.flagDirty then (false, s)
  else
    let oldFlags := d
    let s1 := setEntry s dirtyId { d with flagDirty := true }
    if oldFlags.flagDirty then (false, s1)
    else
      let s2 := { s1 with
        dirtyPageCount := s1.dirtyPageCount + 1
        mappedDirtyPageCount :=
          if oldFlags.flagMapped then s1.mappedDirtyPageCount + 1
          else s1.mappedDirtyPageCount }
      let s3 :=
        if (s2.entries dirtyId).onList ≠ PCList.detached then listRemove s2 dirtyId
        else s2
      let s4 := insertFileDirtyTail s3 dirtyId
      (true, IopMarkFileObjectDirty s4 d.fileObject)

/-- IoMarkPageCacheEntryDirty (pagecach.c lines 845-916).  Chooses the backing
entry when the given entry is not the page owner, exits quickly if that target
is already dirty, acquires the target's file lock, re-checks the backing link
and calls IopMarkPageCacheEntryDirty on the final target. -/
def IoMarkPageCacheEntryDirty (s : PCState) (eid : Nat) : Bool × PCState :=
  let e := s.entries eid
  let dirtyId := if e.flagPageOwner then eid else e.backingEntry.getD eid
  let d := s.entries dirtyId
  if d.flagDirty then (false, s)
  else
    let dirtyId2 :=
      match d.backingEntry with
      | some _ => e.backingEntry.getD dirtyId
      | none => dirtyId
    IopMarkPageCacheEntryDirty s dirtyId2

/-- IopMarkPageCacheEntryClean (pagecach.c lines 2413-2509).  Exits quickly if
the entry is already clean; otherwise performs the atomic DIRTY 1-to-0
transition, decrements the dirty counters (and the mapped-dirty counter when
the entry was mapped), removes the entry from the dirty list it is on, and,
when requested, appends it at the tail of the global clean LRU list. -/
def IopMarkPageCacheEntryClean (s : PCState) (eid : Nat) (moveToCleanList : Bool) :
    Bool × PCState :=
  let e := s.entries eid
  if ¬ e.flagDirty then (false, s)
  else
    let oldFlags := e
    let s1 := setEntry s eid { e with flagDirty := false }
    if oldFlags.flagDirty then
      let s2 := { s1 with
        dirtyPageCount := s1.dirtyPageCount - 1
        mappedDirtyPageCount :=
          if oldFlags.flagMapped then s1.mappedDirtyPageCount - 1
          else s1.mappedDirtyPageCount }
      let s3 := listRemove s2 eid
      let s4 := if moveToCleanList then insertCleanTail s3 eid else s3
      (true, s4)
    else (false, s1)

/-- IoSetPageCacheEntryVirtualAddress (pagecach.c lines 757-843).  Returns
FALSE immediately if the entry already stores a virtual address or virtual
address caching is globally disabled (IoPageCacheDisableVirtualAddresses,
passed here as `disableVa`).  Otherwise attempts the atomic MAPPED 0-to-1
transition on the owner (the entry itself or its backing entry), storing the
virtual address and bumping the mapped counters on success, and finally
mirrors the owner's virtual address into the original entry. -/
def IoSetPageCacheEntryVirtualAddress (s : PCState) (eid : Nat) (va : Nat)
    (disableVa : Bool) : Bool × PCState :=
  let e := s.entries eid
  if e.virtualAddress ≠ none ∨ disableVa = true then (false, s)
  else
    let unmappedId :=
      match e.backingEntry with
      | some b => b
      | none => eid
    let oldFlags := s.entries unmappedId
    let s1 := setEntry s unmappedId { oldFlags with flagMapped := true }
    let didSet := ¬ oldFlags.flagMapped
    let s2 :=
      if didSet then
        let s1a := setEntry s1 unmappedId
          { s1.entries unmappedId with virtualAddress := some va }
        let s1b := { s1a with mappedPageCount := s1a.mappedPageCount + 1 }
        if oldFlags.flagDirty then
          { s1b with mappedDirtyPageCount := s1b.mappedDirtyPageCount + 1 }
        else s1b
      else s1
    let s3 :=
      if unmappedId ≠ eid then
        match (s2.entries unmappedId).virtualAddress with
        | some v => setEntry s2 eid { s2.entries eid with virtualAddress := some v }
        | none => s2
      else s2
    (decide didSet, s3)

/-- IopLinkPageCacheEntries (pagecach.c lines 2742-2952).  Attempts to make
the upper (file) entry share the lower (block device) entry's descriptor,
transferring the physical page.  `unmapSectionsOk` stands for the success of
the external call IopUnmapPageCacheEntrySections on the lower entry (that
routine lives outside pagecach.c).  Returns TRUE if the two entries are
already connected or the link succeeds, FALSE otherwise. -/
def IopLinkPageCacheEntries (s : PCState) (lowerId upperId : Nat)
    (unmapSectionsOk : Bool) : Bool × PCState :=
  let lower := s.entries lowerId
  let upper := s.entries upperId
  let lowerType := s.fileType lower.fileObject
  let upperType := s.fileType upper.fileObject
  if lowerType = upperType then (false, s)
  else if ¬ (lowerType = IoObjectType.blockDevice ∧
             IO_IS_CACHEABLE_FILE upperType = true) then
    -- the asserting else branch: unsupported type pairing, return FALSE
    (false, s)
  else if upper.backingEntry = some lowerId then (true, s)
  else if lower.referenceCount ≠ 1 then (false, s)
  else if ¬ unmapSectionsOk then (false, s)
  else
    -- Delta = LowerEntry->Flags ^ UpperEntry->Flags, restricted to MAPPED
    let deltaMapped := lower.flagMapped ≠ upper.flagMapped
    -- clear the lower entry's MAPPED flag if it is set and the upper's is not
    let s1 :=
      if deltaMapped ∧ lower.flagMapped then
        let old := s.entries lowerId
        let sa := setEntry s lowerId { old with flagMapped := false }
        if old.flagMapped then
          let sb := { sa with mappedPageCount := sa.mappedPageCount - 1 }
          if old.flagDirty then
            { sb with mappedDirtyPageCount := sb.mappedDirtyPageCount - 1 }
          else sb
        else sa
      else s
    -- adopt the upper entry's physical page and VA; the lower entry's old
    -- page is displaced and freed below
    let s2 := setEntry s1 lowerId
      { s1.entries lowerId with
        physicalAddress := (s1.entries upperId).physicalAddress
        virtualAddress := (s1.entries upperId).virtualAddress }
    -- atomically clear MAPPED | PAGE_OWNER on the upper entry
    let oldUpper := s2.entries upperId
    let s3 := setEntry s2 upperId
      { oldUpper with flagMapped := false, flagPageOwner := false }
    let s4 :=
      if oldUpper.flagMapped then
        let sa := { s3 with mappedPageCount := s3.mappedPageCount - 1 }
        -- transfer the mapped flag over to the lower entry
        if deltaMapped then
          let old2 := sa.entries lowerId
          let sb := setEntry sa lowerId { old2 with flagMapped := true }
          if old2.flagMapped = false then
            let sc := { sb with mappedPageCount := sb.mappedPageCount + 1 }
            if old2.flagDirty then
              { sc with mappedDirtyPageCount := sc.mappedDirtyPageCount + 1 }
            else sc
          else sb
        else sa
      else s3
    -- take a reference on the lower entry and set the backing link
    let s5 := setEntry s4 lowerId
      { s4.entries lowerId with
        referenceCount := (s4.entries lowerId).referenceCount + 1 }
    let s6 := setEntry s5 upperId
      { s5.entries upperId with backingEntry := some lowerId }
    -- free the displaced physical page (MmFreePhysicalPage + count decrement)
    (true, { s6 with physicalPageCount := s6.physicalPageCount - 1 })

/-! ### Page cache size limits and the physical-pressure predicate -/

/-- MAX_UINTN on the 64-bit target. -/
def MAX_UINTN : Nat := 2 ^ 64 - 1

def PAGE_CACHE_MEMORY_HEADROOM_PERCENT_TRIGGER : Nat := 10

def PAGE_CACHE_MEMORY_HEADROOM_PERCENT_RETREAT : Nat := 15

def PAGE_CACHE_MINIMUM_MEMORY_TARGET_PERCENT : Nat := 33

def PAGE_CACHE_MINIMUM_MEMORY_PERCENT : Nat := 7

def PAGE_CACHE_LOW_MEMORY_CLEAN_PAGE_MINIMUM_PERCENTAGE : Nat := 10

def PAGE_CACHE_LOW_MEMORY_CLEAN_PAGE_MAXIMUM : Nat := 256

/-- The page cache size limits computed once at initialization. -/
structure PageCacheLimits where
  headroomPagesTrigger : Nat
  headroomPagesRetreat : Nat
  minimumPagesTarget : Nat
  minimumPages : Nat
  lowMemoryCleanPageMinimum : Nat
  deriving DecidableEq

/-- The UINTN clamp written in IopInitializePageCache after each percentage
computation (`if (PhysicalPages > MAX_UINTN) PhysicalPages = MAX_UINTN`). -/
def clampUintn (n : Nat) : Nat :=
  if n > MAX_UINTN then MAX_UINTN else n

/-- The limit computations of IopInitializePageCache (pagecach.c lines
986-1050): each limit is the given percentage of the total physical page
count, and the low-memory clean page minimum is further capped at
PAGE_CACHE_LOW_MEMORY_CLEAN_PAGE_MAXIMUM. -/
def IopInitializePageCacheLimits (totalPhysicalPages : Nat) : PageCacheLimits :=
  let retreat := clampUintn
    (totalPhysicalPages * PAGE_CACHE_MEMORY_HEADROOM_PERCENT_RETREAT / 100)
  let trigger := clampUintn
    (totalPhysicalPages * PAGE_CACHE_MEMORY_HEADROOM_PERCENT_TRIGGER / 100)
  let target := clampUintn
    (totalPhysicalPages * PAGE_CACHE_MINIMUM_MEMORY_TARGET_PERCENT / 100)
  let minimum := clampUintn
    (totalPhysicalPages * PAGE_CACHE_MINIMUM_MEMORY_PERCENT / 100)
  let lowMemory := clampUintn
    (totalPhysicalPages * PAGE_CACHE_LOW_MEMORY_CLEAN_PAGE_MINIMUM_PERCENTAGE / 100)
  { headroomPagesTrigger := trigger
    headroomPagesRetreat := retreat
    minimumPagesTarget := target
    minimumPages := minimum
    lowMemoryCleanPageMinimum :=
      if lowMemory > PAGE_CACHE_LOW_MEMORY_CLEAN_PAGE_MAXIMUM then
        PAGE_CACHE_LOW_MEMORY_CLEAN_PAGE_MAXIMUM
      else lowMemory }

/-- IopIsPageCacheTooBig (pagecach.c lines 4912-4968).  Returns FALSE when the
cache is already at or below its minimum size; otherwise reads the free
physical page count (`freePhysicalPages` stands for the external
MmGetTotalFreePhysicalPages()) and returns FALSE when it still exceeds the
headroom trigger, TRUE otherwise. -/
def IopIsPageCacheTooBig (physicalPageCount : Nat) (limits : PageCacheLimits)
    (freePhysicalPages : Nat) : Bool :=
  if physicalPageCount ≤ limits.minimumPages then false
  else if freePhysicalPages > limits.headroomPagesTrigger then false
  else true

/-! ### The flush engine

IopFlushPageCacheEntries (pagecach.c lines 1600-2071) in its whole-file mode
(`Offset == 0 && Size == -1ULL`).  The call first moves the file object's
dirty page list onto a local list (lines 1740-1748).  Each loop iteration
advances the tree cursor to its in-order successor when one is set, and
otherwise re-seeds it from the front of the local list (lines 1750-1773),
stopping when both are exhausted; a skipped entry and a fully handled
emission clear the cursor (lines 1869-1875 and 1954-1958), forcing a
re-seed.  Handled entries are batched into a flush buffer of at most
PAGE_CACHE_FLUSH_MAX bytes, tolerating up to
PAGE_CACHE_FLUSH_MAX_CLEAN_STREAK contiguous clean pages; a full or
non-contiguous buffer is emitted through IopFlushPageCacheBuffer with the
trailing clean streak trimmed from the flush size (lines 1909-1912 and
1992-2003).  The emission marks its pages clean — removing each dirty one
from the local list — and on a failed or short write re-marks the un-written
pages dirty onto the file object's own dirty page list, which this call does
not read again.  Because the dirty entries of a still-pending buffer remain
on the local list, a re-seed re-processes them: each is counted again in
PagesFlushed and, being dirty, resets the clean streak before the emission
it forces, so that buffer is written without trimming its trailing clean
pages.

The page cache tree is modelled as an offset-sorted list of `FlushPage`s
identified by their indices; the DIRTY flags change during the run and live
in the loop state, while the local list is passed in by the caller as the
list of the indices of the initially dirty entries, in dirty-list
(insertion) order.  The C loop terminates because every re-seed of a
still-dirty buffered entry forces an emission that cleans it off the local
list; the model makes the iteration count explicit as a fuel parameter — a
run that exhausts its fuel stops early and performs the final emission, and
the general theorems below hold for every fuel.  The background-worker
cooperation block (lines 1967-1985) and the allocation-failure path are not
modelled. -/

def PAGE_CACHE_FLUSH_MAX : Nat := 128 * 1024

def PAGE_CACHE_FLUSH_MAX_CLEAN_STREAK : Nat := 4

/-- The static view of one page cache entry in the flush loop: its offset,
its DIRTY flag at the start of the call, and whether it has a dirty backing
entry (only consulted for synchronized flushes). -/
structure FlushPage where
  offset : Nat
  dirty : Bool
  backingDirty : Bool
  deriving DecidableEq

/-- The fallback entry used for out-of-range index lookups. -/
def defaultFlushPage : FlushPage :=
  { offset := 0, dirty := false, backingDirty := false }

/-- The parameters of one whole-file IopFlushPageCacheEntries call.  `sync`
models `IO_FLAG_DATA_SYNCHRONIZED`; `writer` is the external non-cached
write path (IopPerformNonCachedWrite, outside this module), giving the
status and completed byte count for a write of a given offset and size. -/
structure WFlushParams where
  sync : Bool
  pageCount : Option Nat
  pageSize : Nat
  fileSize : Nat
  writer : Nat → Nat → KStatus × Nat

/-- The loop-carried state of a whole-file IopFlushPageCacheEntries call:
the tree cursor (an index into the offset-sorted entry list, or `none`
before a re-seed), the current DIRTY flag of every entry, the local dirty
list of entry indices, the pending flush buffer (as entry indices), its byte
size, the next contiguous offset, the running clean streak, the count of
pages handled, the external writes issued so far, and the collected
status. -/
structure WFlushState where
  node : Option Nat
  dirtyNow : Nat → Bool
  localList : List Nat
  buffer : List Nat
  flushSize : Nat
  flushNextOffset : Nat
  cleanStreak : Nat
  pagesFlushed : Nat
  writes : List (Nat × Nat)
  totalStatus : KStatus

/-- The SkipEntry / CleanStreak decision for one entry (pagecach.c lines
1792-1863), reading the entry's current DIRTY flag: a clean entry is
tolerated (with a streak increment) when the pending buffer is non-empty,
the entry is contiguous with it and the streak is below the maximum, or
written anyway by a synchronized flush over a dirty backing entry, and
skipped otherwise; a dirty entry is always in range in whole-file mode
(`Offset == 0`, `Size == -1ULL` make the bounds tests at lines 1847-1854
false), so it is never skipped and resets the clean streak.  Returns the
skip flag and the updated streak. -/
def flushSkipDecision (sync : Bool) (dirty : Bool) (pg : FlushPage)
    (flushSize flushNextOffset cleanStreak : Nat) : Bool × Nat :=
  if dirty = false then
    if flushSize ≠ 0 ∧ pg.offset = flushNextOffset ∧
       cleanStreak < PAGE_CACHE_FLUSH_MAX_CLEAN_STREAK then
      (false, cleanStreak + 1)
    else if sync = true ∧ pg.backingDirty = true then (false, cleanStreak)
    else (true, cleanStreak)
  else (false, 0)

/-- IopFlushPageCacheBuffer (pagecach.c lines 3760-3939) as invoked from the
flush loop, acting on the loop's dirty flags and local list: mark every
buffer page within the flush size clean — a page whose DIRTY flag was set
goes clean and leaves the local list (IopMarkPageCacheEntryClean removes it
from the list it is on), and the buffer counts as clean when no page made
that transition — clamp the size to the file size, report success without a
write when nothing remains or when the buffer was clean and the flush is not
synchronized, and otherwise issue the external write: a failing status is
returned as is, a short write becomes STATUS_DATA_LENGTH_MISMATCH, and on
either failure the pages from the completed byte count aligned down to page
size up to the bytes to write are re-marked dirty (IopMarkPageCacheEntryDirty
puts them back on the file object's dirty page list, not the local list).
Returns the issued write (if any), the status, the updated dirty flags and
the updated local list.  Entries are never concurrently evicted in this
sequential model, so the in-tree test of line 3826 is always true. -/
def wFlushBuffer (p : WFlushParams) (pages : List FlushPage)
    (dirtyNow : Nat → Bool) (localList : List Nat)
    (buffer : List Nat) (flushSize : Nat) :
    Option (Nat × Nat) × KStatus × (Nat → Bool) × List Nat :=
  match buffer with
  | [] => (none, KStatus.success, dirtyNow, localList)
  | first :: _ =>
    let fileOffset := (pages.getD first defaultFlushPage).offset
    let considered := buffer.take (flushSize / p.pageSize)
    let clean := considered.all (fun i => !dirtyNow i)
    let dirty2 : Nat → Bool :=
      fun i => if considered.contains i then false else dirtyNow i
    let local2 :=
      localList.filter (fun i => !(considered.contains i && dirtyNow i))
    let bytesToWrite0 := p.pageSize * considered.length
    let bytesToWrite :=
      if fileOffset + bytesToWrite0 > p.fileSize then p.fileSize - fileOffset
      else bytesToWrite0
    if bytesToWrite = 0 then (none, KStatus.success, dirty2, local2)
    else if clean = true ∧ p.sync = false then
      (none, KStatus.success, dirty2, local2)
    else
      let wr := p.writer fileOffset bytesToWrite
      let status :=
        if kSuccess wr.1 = false then wr.1
        else if wr.2 ≠ bytesToWrite then KStatus.dataLengthMismatch
        else KStatus.success
      if kSuccess status = true then
        (some (fileOffset, bytesToWrite), KStatus.success, dirty2, local2)
      else
        let start := wr.2 - wr.2 % p.pageSize
        let redirtied := (buffer.enum.filter (fun x =>
          decide (start ≤ x.1 * p.pageSize) &&
          decide (x.1 * p.pageSize < bytesToWrite))).map (fun x => x.2)
        (some (fileOffset, bytesToWrite), status,
         fun i => if redirtied.contains i then true else dirty2 i, local2)

/-- Issue the pending buffer: trim the trailing clean streak from the flush
size (lines 1909-1911 and 1992-1994), call the buffer flush, record the
external write, take over its dirty-flag and local-list updates and, on
failure, overwrite the collected status (lines 1912-1918), then reset the
buffer state (lines 1924-1926). -/
def wEmit (p : WFlushParams) (pages : List FlushPage) (st : WFlushState) :
    WFlushState :=
  let emitSize := st.flushSize - st.cleanStreak * p.pageSize
  let out := wFlushBuffer p pages st.dirtyNow st.localList st.buffer emitSize
  { st with
    buffer := []
    flushSize := 0
    cleanStreak := 0
    dirtyNow := out.2.2.1
    localList := out.2.2.2
    writes := st.writes ++ (match out.1 with | some x => [x] | none => [])
    totalStatus := if kSuccess out.2.1 then st.totalStatus else out.2.1 }

/-- The page-cap test of line 1932: a cap is present and the number of pages
handled has reached it. -/
def capReached (pageCount : Option Nat) (pagesFlushed : Nat) : Bool :=
  match pageCount with
  | some c => decide (pagesFlushed ≥ c)
  | none => false

/-- One iteration of the whole-file flush loop (pagecach.c lines 1750-1986):
advance the cursor to the tree successor when one is set (lines 1756-1760),
otherwise re-seed it from the front of the local dirty list (lines
1762-1773), and stop when it is still clear (lines 1779-1781).  Apply the
skip decision to the current entry — a skipped entry clears the cursor
(lines 1869-1875) — count the handled entry (line 1877), append it to the
pending buffer when the buffer is empty or the entry is contiguous (lines
1884-1894), and otherwise, or when the buffer reaches PAGE_CACHE_FLUSH_MAX,
emit the buffer, stop if the cap is reached (lines 1929-1934, before the
pending entry is appended), then append the pending non-contiguous entry to
the fresh buffer or clear the cursor after a fully handled emission (lines
1941-1958).  Returns whether the loop continues and the next state. -/
def wFlushIter (p : WFlushParams) (pages : List FlushPage)
    (st : WFlushState) : Bool × WFlushState :=
  let node1 : Option Nat :=
    match st.node with
    | some i => if i + 1 < pages.length then some (i + 1) else none
    | none => none
  let node2 : Option Nat :=
    match node1 with
    | some i => some i
    | none =>
      match st.localList with
      | [] => none
      | i :: _ => some i
  match node2 with
  | none => (false, { st with node := none })
  | some i =>
    let pg := pages.getD i defaultFlushPage
    let sk := flushSkipDecision p.sync (st.dirtyNow i) pg st.flushSize
      st.flushNextOffset st.cleanStreak
    if sk.1 = true then (true, { st with node := none })
    else
      let st1 := { st with
        node := some i
        cleanStreak := sk.2
        pagesFlushed := st.pagesFlushed + 1 }
      if st1.flushSize = 0 ∨ pg.offset = st1.flushNextOffset then
        let st2 := { st1 with
          buffer := st1.buffer ++ [i]
          flushSize := st1.flushSize + p.pageSize
          flushNextOffset := pg.offset + p.pageSize }
        if st2.flushSize < PAGE_CACHE_FLUSH_MAX then (true, st2)
        else
          let st3 := wEmit p pages st2
          if capReached p.pageCount st3.pagesFlushed then (false, st3)
          else (true, { st3 with node := none })
      else
        let st3 := wEmit p pages st1
        if capReached p.pageCount st3.pagesFlushed then (false, st3)
        else
          (true, { st3 with
            buffer := [i]
            flushSize := p.pageSize
            flushNextOffset := pg.offset + p.pageSize })

/-- The whole-file flush loop: iterate until an iteration stops (cap reached
or cursor exhausted) or the fuel runs out.  The C loop needs no fuel — each
re-seed of a still-dirty buffered entry forces an emission that removes it
from the local list, so the iteration count is bounded — but the model makes
the bound an explicit parameter; exhausting it stops the loop early, before
the final emission that the caller performs. -/
def wFlushLoop (p : WFlushParams) (pages : List FlushPage) :
    Nat → WFlushState → WFlushState
  | 0, st => st
  | fuel + 1, st =>
    match wFlushIter p pages st with
    | (false, st2) => st2
    | (true, st2) => wFlushLoop p pages fuel st2

/-- The observable outcome of one IopFlushPageCacheEntries call. -/
structure FlushResult where
  status : KStatus
  writes : List (Nat × Nat)
  pagesFlushed : Nat
  pageCountOut : Option Nat
  fileObjectDirtied : Bool
  deriving DecidableEq

/-- A whole-file IopFlushPageCacheEntries call over the offset-sorted
entries of the file, whose initially dirty entries sit on `localList` (in
insertion order): run the loop from a clear cursor and an empty buffer, emit
any leftover buffer (lines 1992-2003), then apply the page-count write-back
(lines 2053-2060: set the cap to zero rather than underflowing when more
pages were handled than requested) and re-mark the file object dirty when
the collected status is a failure (lines 2062-2068).  The device-sync call
for unsynchronized block-device flushes (lines 2039-2047) is outside this
module and not modelled. -/
def IopFlushPageCacheEntries (p : WFlushParams) (pages : List FlushPage)
    (localList : List Nat) (fuel : Nat) : FlushResult :=
  let st0 : WFlushState :=
    { node := none
      dirtyNow := fun i => (pages.getD i defaultFlushPage).dirty
      localList := localList
      buffer := []
      flushSize := 0
      flushNextOffset := 0
      cleanStreak := 0
      pagesFlushed := 0
      writes := []
      totalStatus := KStatus.success }
  let stL := wFlushLoop p pages fuel st0
  let stF := wEmit p pages stL
  { status := stF.totalStatus
    writes := stF.writes
    pagesFlushed := stF.pagesFlushed
    pageCountOut :=
      match p.pageCount with
      | some c => some (if stF.pagesFlushed > c then 0 else c - stF.pagesFlushed)
      | none => none
    fileObjectDirtied := !kSuccess stF.totalStatus }

/-! ### IopFlushPageCacheBuffer in detail

The per-page effects of IopFlushPageCacheBuffer (pagecach.c lines 3760-3939):
the mark-clean pass over the buffer, the early successful returns, the
external write, and the re-dirtying of un-written pages on failure. -/

/-- The view of one buffer page that IopFlushPageCacheBuffer manipulates: its
DIRTY flag and whether it is still in its file's tree (`Node.Parent`). -/
structure BufPage where
  dirty : Bool
  inTree : Bool
  deriving DecidableEq

/-- The observable outcome of one IopFlushPageCacheBuffer call: the returned
status, the buffer pages with their updated dirty flags, whether
IopMarkFileObjectDirty was called, and whether the external non-cached write
path was invoked. -/
structure BufResult where
  status : KStatus
  pages : List BufPage
  fileObjectDirtied : Bool
  writerInvoked : Bool
  deriving DecidableEq

/-- The first loop of IopFlushPageCacheBuffer (lines 3821-3843): walk the
buffer while the byte offset is below the flush size, stopping early at a
page that is no longer in its tree; mark every visited page clean
(IopMarkPageCacheEntryClean returns TRUE exactly when the page was dirty, in
which case the running `Clean` flag is cleared) and accumulate the bytes to
write.  Returns the updated pages, the accumulated byte count, and the
`Clean` flag. -/
def IopBufferMarkCleanPass (ps : Nat) :
    List BufPage → Nat → List BufPage × Nat × Bool
  | [], _ => ([], 0, true)
  | pg :: rest, flushSize =>
    if flushSize = 0 then (pg :: rest, 0, true)
    else if pg.inTree = false then (pg :: rest, 0, true)
    else
      let out := IopBufferMarkCleanPass ps rest (flushSize - ps)
      ({ pg with dirty := false } :: out.1, ps + out.2.1, !pg.dirty && out.2.2)

/-- The failure path of IopFlushPageCacheBuffer (lines 3919-3936): re-mark
dirty every page whose byte offset lies in
[ALIGN_RANGE_DOWN(BytesCompleted, PageSize), BytesToWrite). -/
def IopBufferRedirty (pages : List BufPage) (ps startByte endByte : Nat) :
    List BufPage :=
  (pages.enum).map (fun x =>
    if startByte ≤ x.1 * ps ∧ x.1 * ps < endByte then { x.2 with dirty := true }
    else x.2)

/-- IopFlushPageCacheBuffer (pagecach.c lines 3760-3939).  Marks the buffer
pages clean, clamps the write to the file size, returns success without
touching the external write path when nothing remains to write or when no
page transitioned from dirty to clean and the flush is not synchronized;
otherwise invokes the external non-cached write path (the `writer` oracle
returns its status and completed byte count), reporting
STATUS_DATA_LENGTH_MISMATCH on a short successful write, and on any failure
re-marks the un-written pages dirty and re-marks the file object dirty when
the completed count differs from the bytes to write. -/
def IopFlushPageCacheBuffer (pages : List BufPage) (flushSize : Nat)
    (sync : Bool) (ps fileOffset fileSize : Nat)
    (writer : Nat → Nat → KStatus × Nat) : BufResult :=
  let pass := IopBufferMarkCleanPass ps pages flushSize
  let pages1 := pass.1
  let clean := pass.2.2
  let bytesToWrite :=
    if fileOffset + pass.2.1 > fileSize then fileSize - fileOffset
    else pass.2.1
  if bytesToWrite = 0 then
    { status := KStatus.success, pages := pages1,
      fileObjectDirtied := false, writerInvoked := false }
  else if clean = true ∧ sync = false then
    { status := KStatus.success, pages := pages1,
      fileObjectDirtied := false, writerInvoked := false }
  else
    let wr := writer fileOffset bytesToWrite
    let status :=
      if kSuccess wr.1 = false then wr.1
      else if wr.2 ≠ bytesToWrite then KStatus.dataLengthMismatch
      else KStatus.success
    if kSuccess status then
      { status := KStatus.success, pages := pages1,
        fileObjectDirtied := false, writerInvoked := true }
    else
      { status := status
        pages := IopBufferRedirty pages1 ps (wr.2 - wr.2 % ps) bytesToWrite
        fileObjectDirtied := decide (wr.2 ≠ bytesToWrite)
        writerInvoked := true }

/-! ### The trim engine

IopTrimPageCache (pagecach.c lines 2954-3081) and its helper
IopRemovePageCacheEntriesFromList (lines 3987-4240), sequentialized: lock
acquisition always succeeds (the timid try-lock path only matters under
contention), and a candidate entry with reference count zero observes
reference count one after the helper's own IoPageCacheEntryAddReference. -/

/-- The view of one clean-list candidate that the removal helper reads: its
reference count, DIRTY and PAGE_OWNER flags, and the outcome of the external
IopUnmapPageCacheEntrySections call on it (success, and whether the image
sections reported the page dirty). -/
structure TrimEntry where
  referenceCount : Nat
  dirty : Bool
  pageOwner : Bool
  unmapSectionsOk : Bool
  sectionsWereDirty : Bool
  deriving DecidableEq

/-- IopRemovePageCacheEntriesFromList (pagecach.c lines 3987-4240).  Process
the list while it is non-empty and the target (when supplied) is non-zero:
skip referenced entries and dirty entries, skip entries whose image-section
unmap fails or reports the page was dirty (those are re-marked dirty), and
take down the rest, appending them to the destroy list; only a taken-down
PAGE_OWNER decrements the remaining target.  Returns the destroy list and
the remaining target. -/
def IopRemovePageCacheEntriesFromList :
    List TrimEntry → Option Nat → List TrimEntry × Option Nat
  | [], target => ([], target)
  | e :: rest, target =>
    if target = some 0 then ([], some 0)
    else if e.referenceCount ≠ 0 then
      IopRemovePageCacheEntriesFromList rest target
    else if e.dirty = true then
      IopRemovePageCacheEntriesFromList rest target
    else if e.unmapSectionsOk = false then
      IopRemovePageCacheEntriesFromList rest target
    else if e.sectionsWereDirty = true then
      IopRemovePageCacheEntriesFromList rest target
    else
      let target2 :=
        if e.pageOwner = true then Option.map (fun t => t - 1) target
        else target
      let out := IopRemovePageCacheEntriesFromList rest target2
      (e :: out.1, out.2)

/-- The number of PAGE_OWNER entries in a destroy list; destroying such an
entry frees its physical page and decrements IoPageCachePhysicalPageCount
(IopDestroyPageCacheEntry, pagecach.c lines 3386-3402). -/
def ownerCount (entries : List TrimEntry) : Nat :=
  (entries.filter (fun e => e.pageOwner)).length

/-- The observable outcome of one IopTrimPageCache call. -/
structure TrimResult where
  targetRemoveCount : Nat
  remainingTarget : Nat
  destroyedUnmapped : List TrimEntry
  destroyedClean : List TrimEntry
  finalPhysicalPageCount : Nat
  pageOutRequested : Bool
  pageOutTarget : Nat
  deriving DecidableEq

/-- IopTrimPageCache (pagecach.c lines 2954-3081).  If the cache is not too
big, no eviction target is computed.  Otherwise the target is the headroom
retreat minus the free physical pages, clamped to the current physical page
count and clamped again so the cache does not drop below its minimum pages;
eviction processes the clean-unmapped list first and the clean list only
when target remains; destroying the collected entries lowers the physical
page count by one per page owner.  Afterwards (lines 3065-3078), when the
remaining target is non-zero and the physical page count ended below the
minimum pages target, MmRequestPagingOut is asked for the difference on top
of the free pages.  The virtual trim (IopTrimPageCacheVirtual) touches no
observable reported here. -/
def IopTrimPageCache (physicalPageCount : Nat) (limits : PageCacheLimits)
    (freePhysicalPages : Nat) (cleanUnmappedList cleanList : List TrimEntry) :
    TrimResult :=
  if IopIsPageCacheTooBig physicalPageCount limits freePhysicalPages = false then
    { targetRemoveCount := 0, remainingTarget := 0, destroyedUnmapped := []
      destroyedClean := [], finalPhysicalPageCount := physicalPageCount
      pageOutRequested := false, pageOutTarget := 0 }
  else
    let t0 := limits.headroomPagesRetreat - freePhysicalPages
    let t1 := if t0 > physicalPageCount then physicalPageCount else t0
    let t2 :=
      if physicalPageCount - t1 < limits.minimumPages then
        physicalPageCount - limits.minimumPages
      else t1
    let out1 :=
      if cleanUnmappedList ≠ [] then
        IopRemovePageCacheEntriesFromList cleanUnmappedList (some t2)
      else ([], some t2)
    let out2 :=
      if out1.2 ≠ some 0 then
        IopRemovePageCacheEntriesFromList cleanList out1.2
      else ([], out1.2)
    let destroyedOwners := ownerCount out1.1 + ownerCount out2.1
    let finalPhysical := physicalPageCount - destroyedOwners
    let remaining := (out2.2.getD 0)
    let pageOut :=
      remaining ≠ 0 ∧ finalPhysical < limits.minimumPagesTarget
    { targetRemoveCount := t2
      remainingTarget := remaining
      destroyedUnmapped := out1.1
      destroyedClean := out2.1
      finalPhysicalPageCount := finalPhysical
      pageOutRequested := decide pageOut
      pageOutTarget :=
        if pageOut then
          freePhysicalPages + (limits.minimumPagesTarget - finalPhysical)
        else 0 }

/-! ### Concrete sample data

Small concrete states and scenarios used to evaluate the definitions above
at specific inputs. -/

/-- A clean page-owner entry belonging to file object 10. -/
def ownerEntry : PCEntry :=
  { fileObject := 10, offset := 0, physicalAddress := 4096
    virtualAddress := none, backingEntry := none, referenceCount := 1
    flagDirty := false, flagPageOwner := true, flagMapped := false
    onList := PCList.clean, inTree := true }

/-- A clean non-owner entry belonging to file object 11, whose frame is
backed by entry 0. -/
def nonOwnerEntry : PCEntry :=
  { fileObject := 11, offset := 0, physicalAddress := 4096
    virtualAddress := none, backingEntry := some 0, referenceCount := 1
    flagDirty := false, flagPageOwner := false, flagMapped := false
    onList := PCList.detached, inTree := true }

/-- A state with a linked pair: entry 0 is the block-device owner (file
object 10 is a block device), entry 1 is the file-level non-owner backed by
entry 0 (file object 11 is a regular file).  Entry 0 sits on the global
clean list. -/
def pairState : PCState :=
  { entries := fun i => if i = 1 then nonOwnerEntry else ownerEntry
    cleanList := [0]
    cleanUnmappedList := []
    fileDirtyPages := fun _ => []
    fileObjectDirty := fun _ => false
    fileType := fun f => if f = 10 then IoObjectType.blockDevice
                         else IoObjectType.regularFile
    dirtyPageCount := 0, mappedPageCount := 0, mappedDirtyPageCount := 0
    physicalPageCount := 1 }

/-- A state whose entry 0 is a dirty page owner sitting on the dirty page
list of its file object 10. -/
def dirtyState : PCState :=
  { entries := fun _ =>
      { ownerEntry with flagDirty := true, onList := PCList.fileDirtyList }
    cleanList := []
    cleanUnmappedList := []
    fileDirtyPages := fun f => if f = 10 then [0] else []
    fileObjectDirty := fun f => f = 10
    fileType := fun _ => IoObjectType.regularFile
    dirtyPageCount := 1, mappedPageCount := 0, mappedDirtyPageCount := 0
    physicalPageCount := 1 }

/-- The flush page at page index `k` (page size 4096). -/
def pageAt (k : Nat) (d : Bool) : FlushPage :=
  { offset := k * 4096, dirty := d, backingDirty := false }

/-- A writer oracle that always succeeds and completes every byte. -/
def okWriter : Nat → Nat → KStatus × Nat := fun _ n => (KStatus.success, n)

/-- Whole-file, unsynchronized flush parameters over an 8-page file with
4096-byte pages, an optional page cap, and a writer that always succeeds. -/
def wholeFileParams (cap : Option Nat) : WFlushParams :=
  { sync := false, pageCount := cap, pageSize := 4096, fileSize := 8 * 4096
    writer := okWriter }

/-- Cached pages at every offset 0 through 7 pages, dirty exactly at page
indices 0, 2, 3 and 7. -/
def cachedAllEight : List FlushPage :=
  [pageAt 0 true, pageAt 1 false, pageAt 2 true, pageAt 3 true,
   pageAt 4 false, pageAt 5 false, pageAt 6 false, pageAt 7 true]

/-- Cached pages only at page indices 0, 1, 2, 3 and 7, dirty exactly at 0,
2, 3 and 7 (the spec's scenario S2 population). -/
def cachedSparse : List FlushPage :=
  [pageAt 0 true, pageAt 1 false, pageAt 2 true, pageAt 3 true, pageAt 7 true]

/-- Dirty pages at page indices 0, 2 and 4 with the gaps uncached, so every
page starts its own flush buffer. -/
def cachedGapped : List FlushPage :=
  [pageAt 0 true, pageAt 2 true, pageAt 4 true]

/-- Dirty pages at page indices 0 and 2 with page 1 uncached, so each dirty
page is flushed in its own buffer. -/
def cachedGapTwo : List FlushPage :=
  [pageAt 0 true, pageAt 2 true]

/-- One dirty page at index 0 followed by cached clean pages at indices 1
and 2. -/
def cachedOneDirtyTwoClean : List FlushPage :=
  [pageAt 0 true, pageAt 1 false, pageAt 2 false]

/-- The indices of the initially dirty entries of a cached page list, in
offset order: the content of the file object's dirty page list when the
entries were dirtied in offset order. -/
def dirtyIndexList (pages : List FlushPage) : List Nat :=
  (pages.enum.filter (fun x => x.2.dirty)).map (fun x => x.1)

/-- A writer oracle that fails with transport error 7 at offset zero and
transport error 9 elsewhere, completing no bytes. -/
def twoErrorWriter : Nat → Nat → KStatus × Nat :=
  fun off _ =>
    if off = 0 then (KStatus.ioError 7, 0) else (KStatus.ioError 9, 0)

/-- Whole-file flush parameters whose writer fails with two different
errors. -/
def twoErrorParams : WFlushParams :=
  { sync := false, pageCount := none, pageSize := 4096, fileSize := 8 * 4096
    writer := twoErrorWriter }

/-- A clean, unreferenced page-owner trim candidate whose image-section
unmap succeeds without reporting dirtiness. -/
def evictableOwner : TrimEntry :=
  { referenceCount := 0, dirty := false, pageOwner := true
    unmapSectionsOk := true, sectionsWereDirty := false }

/-! ### Theorems -/

/-- C10: `IoSetPageCacheEntryVirtualAddress` returns false and leaves the
whole state (the entry's flags and virtual address, the owner entry, and the
global mapped-page counters) unchanged whenever the entry already stores a
virtual address — even one different from the argument — or virtual-address
caching is globally disabled; consequently the atomic MAPPED transition on
the owner is attempted only when the entry's stored virtual address is
null. -/
theorem setVirtualAddressNoOp (s : PCState) (eid va : Nat) (disableVa : Bool)
    (h : (s.entries eid).virtualAddress ≠ none ∨ disableVa = true) :
    IoSetPageCacheEntryVirtualAddress s eid va disableVa = (false, s) := by
  unfold IoSetPageCacheEntryVirtualAddress
  rw [if_pos h]

/-- Witness for C10: a concrete call with virtual-address caching disabled
returns false and leaves the state untouched. -/
theorem setVirtualAddressNoOpWitness :
    IoSetPageCacheEntryVirtualAddress pairState 0 8192 true = (false, pairState) :=
  setVirtualAddressNoOp pairState 0 8192 true (Or.inr rfl)

/-- C6 counterexample: with 1000 total physical pages (trigger 100, minimum
70), 500 cached pages and exactly 100 free physical pages, the predicate
returns true although the claimed characterization
`physical_pages > minimum_pages ∧ free_physical < trigger` is false — the
code compares the free count to the trigger non-strictly. -/
theorem tooBigBoundaryCounterexample :
    IopIsPageCacheTooBig 500 (IopInitializePageCacheLimits 1000) 100 = true ∧
    ¬ ((IopInitializePageCacheLimits 1000).minimumPages < 500 ∧
       100 < (IopInitializePageCacheLimits 1000).headroomPagesTrigger) := by
  decide

/-- C6 (amended: the free-page comparison is non-strict): whenever the 33%
computation does not clamp, the physical-pressure predicate returns true if
and only if `physical_pages > minimum_pages ∧ free_physical ≤ trigger`,
where the limits computed once at initialization are trigger = 10%,
retreat = 15%, minimum = 7% and minimum target = 33% of the total physical
pages. -/
theorem tooBigThresholds (total phys free : Nat)
    (hclamp : total * 33 / 100 ≤ MAX_UINTN) :
    (IopIsPageCacheTooBig phys (IopInitializePageCacheLimits total) free = true ↔
      total * 7 / 100 < phys ∧ free ≤ total * 10 / 100) ∧
    (IopInitializePageCacheLimits total).headroomPagesTrigger = total * 10 / 100 ∧
    (IopInitializePageCacheLimits total).headroomPagesRetreat = total * 15 / 100 ∧
    (IopInitializePageCacheLimits total).minimumPages = total * 7 / 100 ∧
    (IopInitializePageCacheLimits total).minimumPagesTarget = total * 33 / 100 := by
  have hmul : ∀ k, k ≤ 33 → total * k / 100 ≤ MAX_UINTN := by
    intro k hk
    exact le_trans (Nat.div_le_div_right (Nat.mul_le_mul_left total hk)) hclamp
  have hcl : ∀ n, n ≤ MAX_UINTN → clampUintn n = n := by
    intro n hn
    unfold clampUintn
    split
    · omega
    · rfl
  have h7 := hcl _ (hmul 7 (by norm_num))
  have h10 := hcl _ (hmul 10 (by norm_num))
  have h15 := hcl _ (hmul 15 (by norm_num))
  have h33 := hcl _ (hmul 33 (by norm_num))
  refine ⟨?_, ?_, ?_, ?_, ?_⟩ <;>
    simp only [IopIsPageCacheTooBig, IopInitializePageCacheLimits,
      PAGE_CACHE_MEMORY_HEADROOM_PERCENT_TRIGGER,
      PAGE_CACHE_MEMORY_HEADROOM_PERCENT_RETREAT,
      PAGE_CACHE_MINIMUM_MEMORY_TARGET_PERCENT,
      PAGE_CACHE_MINIMUM_MEMORY_PERCENT, h7, h10, h15, h33]
  · split_ifs <;> simp <;> omega

/-- Witness for C6: the amended characterization evaluated with 1000 total
pages, 500 cached pages and 50 free pages. -/
theorem tooBigThresholdsWitness :
    IopIsPageCacheTooBig 500 (IopInitializePageCacheLimits 1000) 50 = true ∧
    1000 * 7 / 100 < 500 ∧ 50 ≤ 1000 * 10 / 100 :=
  ⟨((tooBigThresholds 1000 500 50 (by decide)).1).2 ⟨by norm_num, by norm_num⟩,
   by norm_num, by norm_num⟩

/-- C8: `IopLinkPageCacheEntries` is idempotent — when the upper (file)
entry's backing already is the lower (block-device) entry it returns true
with the state untouched (no flags, addresses, reference counts or global
counters change) — and, when the entries are not yet linked, a lower entry
whose reference count is not exactly one makes it return false with the
state untouched, so both entries keep their own physical pages. -/
theorem linkEntriesIdempotent (s : PCState) (lowerId upperId : Nat) (ok : Bool)
    (hlow : s.fileType (s.entries lowerId).fileObject = IoObjectType.blockDevice)
    (hup : IO_IS_CACHEABLE_FILE (s.fileType (s.entries upperId).fileObject) = true) :
    ((s.entries upperId).backingEntry = some lowerId →
      IopLinkPageCacheEntries s lowerId upperId ok = (true, s)) ∧
    ((s.entries upperId).backingEntry ≠ some lowerId →
      (s.entries lowerId).referenceCount ≠ 1 →
      IopLinkPageCacheEntries s lowerId upperId ok = (false, s)) := by
  have hne : IoObjectType.blockDevice ≠ s.fileType (s.entries upperId).fileObject := by
    intro hEq
    rw [← hEq] at hup
    simp [IO_IS_CACHEABLE_FILE] at hup
  constructor
  · intro hb
    simp [IopLinkPageCacheEntries, hne, hlow, hup, hb]
  · intro hb hrc
    simp [IopLinkPageCacheEntries, hne, hlow, hup, hb, hrc]

/-- Witness for C8: linking the already-linked concrete pair (block-device
owner entry 0, file non-owner entry 1) returns true without mutation. -/
theorem linkEntriesIdempotentWitness :
    IopLinkPageCacheEntries pairState 0 1 true = (true, pairState) :=
  (linkEntriesIdempotent pairState 0 1 true rfl rfl).1 rfl

/-- C2: `IopMarkPageCacheEntryClean` returns true exactly when it performed
the DIRTY 1-to-0 transition; on that transition it decrements dirty_pages
(and mapped_dirty_pages when the entry was MAPPED), removes the entry from
its file's dirty list, and appends it at the tail of the global clean LRU
exactly when the move flag is set; an already-clean entry yields false with
no state change.  The true return value is the at-most-one-writer token:
once a call returns true, any further call on the entry returns false until
it is dirtied again. -/
theorem markCleanSpec (s : PCState) (eid : Nat) (move m2 : Bool)
    (honlist : (s.entries eid).flagDirty = true →
      (s.entries eid).onList = PCList.fileDirtyList)
    (hcount : List.count eid (s.fileDirtyPages (s.entries eid).fileObject) ≤ 1) :
    ((IopMarkPageCacheEntryClean s eid move).1 = (s.entries eid).flagDirty) ∧
    ((s.entries eid).flagDirty = false →
      IopMarkPageCacheEntryClean s eid move = (false, s)) ∧
    ((s.entries eid).flagDirty = true →
      ((IopMarkPageCacheEntryClean s eid move).2.entries eid).flagDirty = false ∧
      (IopMarkPageCacheEntryClean s eid move).2.dirtyPageCount =
        s.dirtyPageCount - 1 ∧
      (IopMarkPageCacheEntryClean s eid move).2.mappedDirtyPageCount =
        (if (s.entries eid).flagMapped then s.mappedDirtyPageCount - 1
         else s.mappedDirtyPageCount) ∧
      eid ∉ (IopMarkPageCacheEntryClean s eid move).2.fileDirtyPages
              ((s.entries eid).fileObject) ∧
      (IopMarkPageCacheEntryClean s eid move).2.cleanList =
        (if move then s.cleanList ++ [eid] else s.cleanList)) ∧
    ((IopMarkPageCacheEntryClean s eid move).1 = true →
      (IopMarkPageCacheEntryClean
        (IopMarkPageCacheEntryClean s eid move).2 eid m2).1 = false) := by
  cases hd : (s.entries eid).flagDirty with
  | false =>
    refine ⟨?_, ?_, ?_, ?_⟩ <;>
      simp [IopMarkPageCacheEntryClean, hd]
  | true =>
    have honl := honlist hd
    have hnotmem :
        eid ∉ (s.fileDirtyPages ((s.entries eid).fileObject)).erase eid := by
      intro hmem
      have := List.count_erase_self eid
        (s.fileDirtyPages ((s.entries eid).fileObject))
      have hpos := List.count_pos_iff.mpr hmem
      omega
    refine ⟨?_, ?_, ?_, ?_⟩
    · simp [IopMarkPageCacheEntryClean, hd]
    · intro hcontra
      simp at hcontra
    · intro _
      cases hmove : move <;>
        simp [IopMarkPageCacheEntryClean, hd, listRemove, insertCleanTail,
          setEntry, honl, hnotmem]
    · intro _
      cases hmove : move <;>
        simp [IopMarkPageCacheEntryClean, hd, listRemove, insertCleanTail,
          setEntry, honl]

/-- Witness for C2: marking the concrete dirty entry clean with the move
flag set returns true, clears the dirty bit and the dirty counter, empties
the file's dirty list, appends the entry to the clean LRU, and a second
mark-clean returns false. -/
theorem markCleanSpecWitness :
    (IopMarkPageCacheEntryClean dirtyState 0 true).1 = true ∧
    (IopMarkPageCacheEntryClean dirtyState 0 true).2.dirtyPageCount = 0 ∧
    0 ∉ (IopMarkPageCacheEntryClean dirtyState 0 true).2.fileDirtyPages 10 ∧
    (IopMarkPageCacheEntryClean dirtyState 0 true).2.cleanList = [0] ∧
    (IopMarkPageCacheEntryClean
      (IopMarkPageCacheEntryClean dirtyState 0 true).2 0 false).1 = false := by
  have H := markCleanSpec dirtyState 0 true false (fun _ => rfl) (by decide)
  have H3 := H.2.2.1 rfl
  exact ⟨by rw [H.1]; rfl, by simpa using H3.2.1, by simpa using H3.2.2.2.1,
    by simpa using H3.2.2.2.2, H.2.2.2 (by rw [H.1]; rfl)⟩

/-- C1: for a non-owner entry E with backing owner B, `IoMarkPageCacheEntryDirty`
sets the DIRTY flag on B and never on E; on B's 0-to-1 DIRTY transition it
increments dirty_pages (and mapped_dirty_pages when B was MAPPED), removes B
from any global clean list, appends B at the tail of its file's dirty list,
marks that file object dirty and returns true; when B is already dirty it
returns false and changes nothing. -/
theorem markDirtyThroughBacking (s : PCState) (eid bid : Nat)
    (hown : (s.entries eid).flagPageOwner = false)
    (hback : (s.entries eid).backingEntry = some bid)
    (hedirty : (s.entries eid).flagDirty = false)
    (hbown : (s.entries bid).flagPageOwner = true)
    (hbback : (s.entries bid).backingEntry = none)
    (hne : bid ≠ eid)
    (honlist : (s.entries bid).onList ≠ PCList.fileDirtyList)
    (hc1 : List.count bid s.cleanList ≤ 1)
    (hc2 : List.count bid s.cleanUnmappedList ≤ 1)
    (hc3 : (s.entries bid).onList ≠ PCList.clean → bid ∉ s.cleanList)
    (hc4 : (s.entries bid).onList ≠ PCList.cleanUnmapped →
      bid ∉ s.cleanUnmappedList) :
    (((IoMarkPageCacheEntryDirty s eid).2.entries eid).flagDirty = false) ∧
    ((s.entries bid).flagDirty = true →
      IoMarkPageCacheEntryDirty s eid = (false, s)) ∧
    ((s.entries bid).flagDirty = false →
      (IoMarkPageCacheEntryDirty s eid).1 = true ∧
      ((IoMarkPageCacheEntryDirty s eid).2.entries bid).flagDirty = true ∧
      (IoMarkPageCacheEntryDirty s eid).2.dirtyPageCount = s.dirtyPageCount + 1 ∧
      (IoMarkPageCacheEntryDirty s eid).2.mappedDirtyPageCount =
        (if (s.entries bid).flagMapped then s.mappedDirtyPageCount + 1
         else s.mappedDirtyPageCount) ∧
      bid ∉ (IoMarkPageCacheEntryDirty s eid).2.cleanList ∧
      bid ∉ (IoMarkPageCacheEntryDirty s eid).2.cleanUnmappedList ∧
      (IoMarkPageCacheEntryDirty s eid).2.fileDirtyPages
          ((s.entries bid).fileObject) =
        s.fileDirtyPages ((s.entries bid).fileObject) ++ [bid] ∧
      (IoMarkPageCacheEntryDirty s eid).2.fileObjectDirty
          ((s.entries bid).fileObject) = true) := by
  have hnc : bid ∉ s.cleanList.erase bid := by
    intro hmem
    have := List.count_erase_self bid s.cleanList
    have hpos := List.count_pos_iff.mpr hmem
    omega
  have hncu : bid ∉ s.cleanUnmappedList.erase bid := by
    intro hmem
    have := List.count_erase_self bid s.cleanUnmappedList
    have hpos := List.count_pos_iff.mpr hmem
    omega
  have hne2 : eid ≠ bid := Ne.symm hne
  cases hbd : (s.entries bid).flagDirty with
  | true =>
    refine ⟨?_, ?_, ?_⟩
    · simp [IoMarkPageCacheEntryDirty, hown, hback, hbd, hedirty]
    · intro _
      simp [IoMarkPageCacheEntryDirty, hown, hback, hbd]
    · intro hcontra
      simp at hcontra
  | false =>
    cases honL : (s.entries bid).onList with
    | fileDirtyList => exact absurd honL honlist
    | detached =>
      refine ⟨?_, ?_, ?_⟩
      · simp [IoMarkPageCacheEntryDirty, IopMarkPageCacheEntryDirty, hown,
          hback, hbd, hedirty, hbown, hbback, honL, setEntry, listRemove,
          insertFileDirtyTail, IopMarkFileObjectDirty, hne, hne2, hne2]
      · intro hcontra
        simp at hcontra
      · intro _
        refine ⟨?_, ?_, ?_, ?_, ?_, ?_, ?_, ?_⟩ <;>
          simp [IoMarkPageCacheEntryDirty, IopMarkPageCacheEntryDirty, hown,
            hback, hbd, hedirty, hbown, hbback, honL, setEntry, listRemove,
            insertFileDirtyTail, IopMarkFileObjectDirty, hne, hne2,
            hc3 (by simp [honL]), hc4 (by simp [honL])]
    | removal =>
      refine ⟨?_, ?_, ?_⟩
      · simp [IoMarkPageCacheEntryDirty, IopMarkPageCacheEntryDirty, hown,
          hback, hbd, hedirty, hbown, hbback, honL, setEntry, listRemove,
          insertFileDirtyTail, IopMarkFileObjectDirty, hne, hne2, hne2]
      · intro hcontra
        simp at hcontra
      · intro _
        refine ⟨?_, ?_, ?_, ?_, ?_, ?_, ?_, ?_⟩ <;>
          simp [IoMarkPageCacheEntryDirty, IopMarkPageCacheEntryDirty, hown,
            hback, hbd, hedirty, hbown, hbback, honL, setEntry, listRemove,
            insertFileDirtyTail, IopMarkFileObjectDirty, hne, hne2,
            hc3 (by simp [honL]), hc4 (by simp [honL])]
    | clean =>
      refine ⟨?_, ?_, ?_⟩
      · simp [IoMarkPageCacheEntryDirty, IopMarkPageCacheEntryDirty, hown,
          hback, hbd, hedirty, hbown, hbback, honL, setEntry, listRemove,
          insertFileDirtyTail, IopMarkFileObjectDirty, hne, hne2, hne2]
      · intro hcontra
        simp at hcontra
      · intro _
        refine ⟨?_, ?_, ?_, ?_, ?_, ?_, ?_, ?_⟩ <;>
          simp [IoMarkPageCacheEntryDirty, IopMarkPageCacheEntryDirty, hown,
            hback, hbd, hedirty, hbown, hbback, honL, setEntry, listRemove,
            insertFileDirtyTail, IopMarkFileObjectDirty, hne, hne2, hnc,
            hc4 (by simp [honL])]
    | cleanUnmapped =>
      refine ⟨?_, ?_, ?_⟩
      · simp [IoMarkPageCacheEntryDirty, IopMarkPageCacheEntryDirty, hown,
          hback, hbd, hedirty, hbown, hbback, honL, setEntry, listRemove,
          insertFileDirtyTail, IopMarkFileObjectDirty, hne, hne2, hne2]
      · intro hcontra
        simp at hcontra
      · intro _
        refine ⟨?_, ?_, ?_, ?_, ?_, ?_, ?_, ?_⟩ <;>
          simp [IoMarkPageCacheEntryDirty, IopMarkPageCacheEntryDirty, hown,
            hback, hbd, hedirty, hbown, hbback, honL, setEntry, listRemove,
            insertFileDirtyTail, IopMarkFileObjectDirty, hne, hne2, hncu,
            hc3 (by simp [honL])]

/-- Witness for C1: marking the concrete non-owner entry 1 dirty dirties the
backing owner entry 0 (not entry 1), bumps the dirty page count, moves entry
0 from the clean list to file object 10's dirty list and marks that file
object dirty. -/
theorem markDirtyThroughBackingWitness :
    (IoMarkPageCacheEntryDirty pairState 1).1 = true ∧
    ((IoMarkPageCacheEntryDirty pairState 1).2.entries 0).flagDirty = true ∧
    ((IoMarkPageCacheEntryDirty pairState 1).2.entries 1).flagDirty = false ∧
    (IoMarkPageCacheEntryDirty pairState 1).2.dirtyPageCount = 1 ∧
    0 ∉ (IoMarkPageCacheEntryDirty pairState 1).2.cleanList ∧
    (IoMarkPageCacheEntryDirty pairState 1).2.fileDirtyPages 10 = [0] ∧
    (IoMarkPageCacheEntryDirty pairState 1).2.fileObjectDirty 10 = true := by
  have H := markDirtyThroughBacking pairState 1 0 rfl rfl rfl rfl rfl
    (by decide) (by decide) (by decide) (by decide)
    (by decide) (by decide)
  have H3 := H.2.2 rfl
  exact ⟨H3.1, H3.2.1, H.1, by simpa using H3.2.2.1, H3.2.2.2.2.1,
    by simpa using H3.2.2.2.2.2.2.1, H3.2.2.2.2.2.2.2⟩

/-- Helper: a write issued by the in-loop buffer flush never exceeds the
flush size it was given. -/
theorem wFlushBufferWriteBound (p : WFlushParams) (pages : List FlushPage)
    (dn : Nat → Bool) (ll : List Nat) (buffer : List Nat) (fs off sz : Nat)
    (h : (wFlushBuffer p pages dn ll buffer fs).1 = some (off, sz)) :
    sz ≤ fs := by
  match buffer with
  | [] => simp [wFlushBuffer] at h
  | first :: rest =>
    simp only [wFlushBuffer] at h
    have h1 : ((first :: rest).take (fs / p.pageSize)).length ≤
        fs / p.pageSize := by
      generalize fs / p.pageSize = k
      rw [List.length_take]
      omega
    have h2 : p.pageSize * (fs / p.pageSize) ≤ fs := by
      rw [Nat.mul_comm]
      exact Nat.div_mul_le_self fs p.pageSize
    have hlen : p.pageSize * ((first :: rest).take (fs / p.pageSize)).length
        ≤ fs := le_trans (Nat.mul_le_mul (Nat.le_refl p.pageSize) h1) h2
    by_cases hcl : (pages.getD first defaultFlushPage).offset +
        p.pageSize * ((first :: rest).take (fs / p.pageSize)).length >
        p.fileSize
    · rw [if_pos hcl] at h
      split_ifs at h <;>
        (have h2b : some ((pages.getD first defaultFlushPage).offset,
              p.fileSize - (pages.getD first defaultFlushPage).offset) =
              some (off, sz) := h
         rw [Option.some.injEq, Prod.mk.injEq] at h2b
         omega)
    · rw [if_neg hcl] at h
      split_ifs at h <;>
        (have h2b : some ((pages.getD first defaultFlushPage).offset,
              p.pageSize * ((first :: rest).take (fs / p.pageSize)).length) =
              some (off, sz) := h
         rw [Option.some.injEq, Prod.mk.injEq] at h2b
         omega)


/-- Helper: the emitter either issues no write or appends exactly one write
whose size is bounded by the pending flush size minus the clean streak at
the moment of emission. -/
theorem flushEmitWrites (p : WFlushParams) (pages : List FlushPage)
    (st : WFlushState) :
    (wEmit p pages st).writes = st.writes ∨
    ∃ off sz, (wEmit p pages st).writes = st.writes ++ [(off, sz)] ∧
      sz ≤ st.flushSize - st.cleanStreak * p.pageSize := by
  cases hw : (wFlushBuffer p pages st.dirtyNow st.localList st.buffer
      (st.flushSize - st.cleanStreak * p.pageSize)).1 with
  | none =>
    left
    simp [wEmit, hw]
  | some x =>
    right
    refine ⟨x.1, x.2, ?_, ?_⟩
    · simp [wEmit, hw]
    · exact wFlushBufferWriteBound p pages st.dirtyNow st.localList st.buffer
        _ x.1 x.2 (by rw [hw])

/-- Helper: a clean page passes the skip decision of a non-synchronized
flush only when the pending buffer is non-empty, the page is contiguous
with it, and the running clean streak is below the maximum. -/
theorem cleanInclusionCondition (sync dirty : Bool) (pg : FlushPage)
    (fs no cs : Nat) (hd : dirty = false) (hs : sync = false)
    (hskip : (flushSkipDecision sync dirty pg fs no cs).1 = false) :
    fs ≠ 0 ∧ pg.offset = no ∧ cs < PAGE_CACHE_FLUSH_MAX_CLEAN_STREAK := by
  by_cases hC : fs ≠ 0 ∧ pg.offset = no ∧
      cs < PAGE_CACHE_FLUSH_MAX_CLEAN_STREAK
  · exact hC
  · exfalso
    have hT : (flushSkipDecision sync dirty pg fs no cs).1 = true := by
      simp [flushSkipDecision, hd, hs, hC]
    rw [hT] at hskip
    cases hskip

/-- Helper: a dirty page is never skipped by a whole-file flush step and
resets the clean streak to zero. -/
theorem dirtyResetsStreak (sync dirty : Bool) (pg : FlushPage)
    (fs no cs : Nat) (hd : dirty = true) :
    flushSkipDecision sync dirty pg fs no cs = (false, 0) := by
  simp [flushSkipDecision, hd]

/-- C3 counterexample: with pages cached at every offset 0 through 7 pages
and dirty exactly at page indices 0, 2, 3 and 7, the clean streak across
pages 4, 5 and 6 is only three — below MAX_CLEAN_STREAK — so the whole-file
flush issues exactly ONE external write of 8 pages covering [0, 8·ps), not
the two writes the claim states; the dirty-list re-seed then re-walks the
already-clean pages without issuing further writes. -/
theorem flushCoalescingCounterexample :
    (IopFlushPageCacheEntries (wholeFileParams none) cachedAllEight
      (dirtyIndexList cachedAllEight) 64).writes = [(0, 8 * 4096)] ∧
    (IopFlushPageCacheEntries (wholeFileParams none) cachedAllEight
      (dirtyIndexList cachedAllEight) 64).writes.length ≠ 2 := by
  decide

/-- C3 (amended: the two-write outcome belongs to the spec's S2 population,
where the pages at indices 4, 5 and 6 are not cached; with all eight pages
cached the clean streak of three is tolerated and a single 8-page write is
issued — see the counterexample): flushing a whole file whose cached pages
sit at page indices {0, 1, 2, 3, 7} and are dirty exactly at {0, 2, 3, 7}
issues exactly two external writer calls, one of size 4·ps covering
[0, 4·ps) and one of size ps covering [7·ps, 8·ps); in general the per-entry
decision handles a clean page only when it is contiguous with the pending
buffer and the running clean streak is below MAX_CLEAN_STREAK = 4, a dirty
entry is never skipped by a whole-file flush and resets the streak to zero,
and each emission writes at most the buffered size minus the clean streak at
the moment it is issued — in a whole-file flush a pending dirty entry
re-encountered through the dirty-list re-seed resets the streak first, so
trailing clean pages already in the buffer may still be written. -/
theorem flushCoalescingSpec :
    ((IopFlushPageCacheEntries (wholeFileParams none) cachedSparse
       (dirtyIndexList cachedSparse) 64).writes =
      [(0, 4 * 4096), (7 * 4096, 4096)]) ∧
    (∀ (sync dirty : Bool) (pg : FlushPage) (fs no cs : Nat),
      dirty = false → sync = false →
      (flushSkipDecision sync dirty pg fs no cs).1 = false →
      fs ≠ 0 ∧ pg.offset = no ∧ cs < PAGE_CACHE_FLUSH_MAX_CLEAN_STREAK) ∧
    (∀ (sync dirty : Bool) (pg : FlushPage) (fs no cs : Nat), dirty = true →
      flushSkipDecision sync dirty pg fs no cs = (false, 0)) ∧
    (∀ (p : WFlushParams) (pages : List FlushPage) (st : WFlushState),
      (wEmit p pages st).writes = st.writes ∨
      ∃ off sz, (wEmit p pages st).writes = st.writes ++ [(off, sz)] ∧
        sz ≤ st.flushSize - st.cleanStreak * p.pageSize) :=
  ⟨by decide,
   fun sy d pg fs no cs hd hs h =>
     cleanInclusionCondition sy d pg fs no cs hd hs h,
   fun sy d pg fs no cs hd => dirtyResetsStreak sy d pg fs no cs hd,
   flushEmitWrites⟩

/-- Witness for C3: the clean-inclusion condition evaluated at concrete
arguments — a clean page contiguous with a one-page pending buffer at streak
zero passes the skip decision, and the condition components hold there. -/
theorem flushCoalescingSpecWitness :
    (4096 : Nat) ≠ 0 ∧ (pageAt 1 false).offset = 4096 ∧
      (0 : Nat) < PAGE_CACHE_FLUSH_MAX_CLEAN_STREAK :=
  flushCoalescingSpec.2.1 false false (pageAt 1 false) 4096 4096 0 rfl rfl
    (by decide)

/-- C9: for a flush call with a page cap, the loop stops starting new
buffers once the handled page count reaches the cap (with cap 3 over three
discontiguous dirty pages only the first two buffers are written, while the
uncapped run writes all three), and on return the cap has been decreased by
the number of handled pages with truncated (saturating-at-zero)
subtraction: a run that handles more pages than the cap returns exactly
zero rather than underflowing.  The handled page count includes entries
counted again when the whole-file re-seed re-processes a still-pending
dirty entry: a dirty page followed by two cached clean pages is handled six
times in total — it forces one untrimmed 3-page write and a second,
suppressed clean pass — and decrements a cap of 10 to 4. -/
theorem flushPageCapSpec :
    (∀ (p : WFlushParams) (pages : List FlushPage) (localList : List Nat)
        (fuel c : Nat), p.pageCount = some c →
      (IopFlushPageCacheEntries p pages localList fuel).pageCountOut =
        some (c - (IopFlushPageCacheEntries p pages localList
          fuel).pagesFlushed)) ∧
    ((IopFlushPageCacheEntries (wholeFileParams (some 3)) cachedGapped
        (dirtyIndexList cachedGapped) 32).writes =
      [(0, 4096), (2 * 4096, 4096)] ∧
     (IopFlushPageCacheEntries (wholeFileParams none) cachedGapped
        (dirtyIndexList cachedGapped) 32).writes =
      [(0, 4096), (2 * 4096, 4096), (4 * 4096, 4096)]) ∧
    ((IopFlushPageCacheEntries (wholeFileParams (some 1)) cachedGapped
        (dirtyIndexList cachedGapped) 32).pagesFlushed = 2 ∧
     (IopFlushPageCacheEntries (wholeFileParams (some 1)) cachedGapped
        (dirtyIndexList cachedGapped) 32).pageCountOut = some 0 ∧
     (IopFlushPageCacheEntries (wholeFileParams (some 10))
        cachedOneDirtyTwoClean (dirtyIndexList cachedOneDirtyTwoClean)
        32).writes = [(0, 3 * 4096)] ∧
     (IopFlushPageCacheEntries (wholeFileParams (some 10))
        cachedOneDirtyTwoClean (dirtyIndexList cachedOneDirtyTwoClean)
        32).pagesFlushed = 6 ∧
     (IopFlushPageCacheEntries (wholeFileParams (some 10))
        cachedOneDirtyTwoClean (dirtyIndexList cachedOneDirtyTwoClean)
        32).pageCountOut = some 4) := by
  refine ⟨?_, by decide, by decide⟩
  intro p pages localList fuel c hc
  simp only [IopFlushPageCacheEntries, hc]
  congr 1
  split
  · omega
  · rfl

/-- Witness for C9: the saturating-subtraction property evaluated on the
concrete capped run. -/
theorem flushPageCapSpecWitness :
    (IopFlushPageCacheEntries (wholeFileParams (some 1)) cachedGapped
      (dirtyIndexList cachedGapped) 32).pageCountOut =
    some (1 - (IopFlushPageCacheEntries (wholeFileParams (some 1))
      cachedGapped (dirtyIndexList cachedGapped) 32).pagesFlushed) :=
  flushPageCapSpec.1 (wholeFileParams (some 1)) cachedGapped
    (dirtyIndexList cachedGapped) 32 1 rfl

/-- C5 counterexample: a whole-file flush over two discontiguous dirty pages
whose buffer writes fail with transport error 7 (first buffer, offset 0) and
transport error 9 (second buffer, offset 2·ps): the first failure re-dirties
its page onto the file object's dirty list, the still-pending second page is
re-processed through the local-list re-seed — forcing a second failing write
at 2·ps and a re-append — and the final emission retries it a third time
because the second failure re-dirtied it; the operation returns error 9 —
the LAST error — not the first error 7 the claim states. -/
theorem flushFirstErrorCounterexample :
    twoErrorWriter 0 4096 = (KStatus.ioError 7, 0) ∧
    (IopFlushPageCacheEntries twoErrorParams cachedGapTwo
      (dirtyIndexList cachedGapTwo) 32).writes =
      [(0, 4096), (2 * 4096, 4096), (2 * 4096, 4096)] ∧
    (IopFlushPageCacheEntries twoErrorParams cachedGapTwo
      (dirtyIndexList cachedGapTwo) 32).status = KStatus.ioError 9 ∧
    (IopFlushPageCacheEntries twoErrorParams cachedGapTwo
      (dirtyIndexList cachedGapTwo) 32).status ≠ KStatus.ioError 7 := by
  decide

/-- C5 (amended: the operation remembers the LAST error, not the first — the
collected status is overwritten on every failing buffer write): a whole-file
flush does not stop at the first failing buffer write: it continues flushing
the remaining pages — in the two-error run the second buffer at 2·ps is
still written after the first buffer's failure, and the failure-re-dirtied
page is even retried by the final emission within the same call — the most
recent error is returned as the operation's result, and the file object is
re-marked dirty on any failure so the worker will retry. -/
theorem flushErrorCollectionSpec :
    (∀ (p : WFlushParams) (pages : List FlushPage) (localList : List Nat)
        (fuel : Nat),
      kSuccess (IopFlushPageCacheEntries p pages localList fuel).status =
        false →
      (IopFlushPageCacheEntries p pages localList fuel).fileObjectDirtied =
        true) ∧
    ((IopFlushPageCacheEntries twoErrorParams cachedGapTwo
        (dirtyIndexList cachedGapTwo) 32).writes =
      [(0, 4096), (2 * 4096, 4096), (2 * 4096, 4096)] ∧
     (IopFlushPageCacheEntries twoErrorParams cachedGapTwo
        (dirtyIndexList cachedGapTwo) 32).status = KStatus.ioError 9 ∧
     (IopFlushPageCacheEntries twoErrorParams cachedGapTwo
        (dirtyIndexList cachedGapTwo) 32).fileObjectDirtied = true) := by
  refine ⟨?_, by decide⟩
  intro p pages localList fuel h
  simp only [IopFlushPageCacheEntries] at h ⊢
  rw [h]
  rfl

/-- Witness for C5: the failure-implies-file-dirtied property evaluated on
the concrete failing two-error run. -/
theorem flushErrorCollectionSpecWitness :
    (IopFlushPageCacheEntries twoErrorParams cachedGapTwo
      (dirtyIndexList cachedGapTwo) 32).fileObjectDirtied = true :=
  flushErrorCollectionSpec.1 twoErrorParams cachedGapTwo
    (dirtyIndexList cachedGapTwo) 32 (by decide)

/-- Helper: the mark-clean pass preserves the buffer length. -/
theorem markCleanPassLength (ps : Nat) (pages : List BufPage) :
    ∀ fs, (IopBufferMarkCleanPass ps pages fs).1.length = pages.length := by
  induction pages with
  | nil => intro fs; simp [IopBufferMarkCleanPass]
  | cons pg rest ih =>
    intro fs
    simp only [IopBufferMarkCleanPass]
    split_ifs <;> simp [ih]

/-- Helper: when every page of the buffer is clean, the mark-clean pass
reports the buffer clean. -/
theorem markCleanPassAllClean (ps : Nat) (pages : List BufPage)
    (h : ∀ pg ∈ pages, pg.dirty = false) :
    ∀ fs, (IopBufferMarkCleanPass ps pages fs).2.2 = true := by
  induction pages with
  | nil => intro fs; simp [IopBufferMarkCleanPass]
  | cons pg rest ih =>
    intro fs
    simp only [IopBufferMarkCleanPass]
    split_ifs <;>
      simp [h pg (List.mem_cons_self pg rest),
        ih (fun q hq => h q (List.mem_cons_of_mem pg hq))]

/-- Helper: over a buffer of in-tree pages whose total size is the flush
size, the mark-clean pass accumulates exactly the flush size. -/
theorem markCleanPassBytes (ps : Nat) (hps : 0 < ps) :
    ∀ (pages : List BufPage), (∀ pg ∈ pages, pg.inTree = true) →
    (IopBufferMarkCleanPass ps pages (pages.length * ps)).2.1 =
      pages.length * ps := by
  intro pages
  induction pages with
  | nil => intro _; simp [IopBufferMarkCleanPass]
  | cons pg rest ih =>
    intro h
    have hfs : (pg :: rest).length * ps ≠ 0 := by
      simp only [List.length_cons]
      positivity
    have htree : pg.inTree = true := h pg (List.mem_cons_self pg rest)
    have harg : (pg :: rest).length * ps - ps = rest.length * ps := by
      simp only [List.length_cons]
      rw [Nat.succ_mul]
      omega
    simp only [IopBufferMarkCleanPass, hfs, if_false, htree,
      Bool.true_eq_false, harg,
      ih (fun q hq => h q (List.mem_cons_of_mem pg hq))]
    simp only [List.length_cons, Nat.succ_mul]
    omega

/-- Helper: over a buffer of in-tree pages whose total size is the flush
size, the mark-clean pass reports clean exactly when every page was
clean. -/
theorem markCleanPassCleanEq (ps : Nat) (hps : 0 < ps) :
    ∀ (pages : List BufPage), (∀ pg ∈ pages, pg.inTree = true) →
    (IopBufferMarkCleanPass ps pages (pages.length * ps)).2.2 =
      pages.all (fun pg => !pg.dirty) := by
  intro pages
  induction pages with
  | nil => intro _; simp [IopBufferMarkCleanPass]
  | cons pg rest ih =>
    intro h
    have hfs : (pg :: rest).length * ps ≠ 0 := by
      simp only [List.length_cons]
      positivity
    have htree : pg.inTree = true := h pg (List.mem_cons_self pg rest)
    have harg : (pg :: rest).length * ps - ps = rest.length * ps := by
      simp only [List.length_cons]
      rw [Nat.succ_mul]
      omega
    simp only [IopBufferMarkCleanPass, hfs, if_false, htree,
      Bool.true_eq_false, harg,
      ih (fun q hq => h q (List.mem_cons_of_mem pg hq))]
    simp [List.all_cons]

/-- Helper: the redirty pass marks dirty every page whose byte offset lies
in the given range. -/
theorem redirtyGetDirty (pages : List BufPage) (ps sb eb i : Nat)
    (h1 : sb ≤ i * ps) (h2 : i * ps < eb)
    (hr : i < (IopBufferRedirty pages ps sb eb).length) :
    ((IopBufferRedirty pages ps sb eb).get ⟨i, hr⟩).dirty = true := by
  have hi : i < pages.length := by
    simpa [IopBufferRedirty] using hr
  simp only [IopBufferRedirty, List.get_eq_getElem, List.getElem_map,
    List.getElem_enum]
  rw [if_pos ⟨h1, h2⟩]

/-- C4 counterexample: a one-page dirty buffer whose external write FAILS
but reports all bytes completed: the error is returned, yet the file object
is NOT re-marked dirty — the code re-marks it only when the completed byte
count differs from the bytes to write, while the claim requires it on every
failure. -/
theorem flushBufferFileDirtyCounterexample :
    (IopFlushPageCacheBuffer [⟨true, true⟩] 4096 false 4096 0 8192
        (fun _ n => (KStatus.ioError 5, n))).status = KStatus.ioError 5 ∧
    (IopFlushPageCacheBuffer [⟨true, true⟩] 4096 false 4096 0 8192
        (fun _ n => (KStatus.ioError 5, n))).fileObjectDirtied = false := by
  decide

/-- C4 (amended: the file object is re-marked dirty exactly when the
completed byte count differs from the bytes to write, not on every failing
write): `IopFlushPageCacheBuffer` returns success without invoking the
external non-cached write path when no page of the buffer transitioned from
dirty to clean and the flush is not synchronized; and when the external
write fails or completes fewer bytes than requested, the error is returned
(STATUS_DATA_LENGTH_MISMATCH for a short successful write), every page from
the completed byte count aligned down to page size up to the bytes to write
is re-marked dirty, and the file object is re-marked dirty exactly when the
completed count differs from the bytes to write. -/
theorem flushBufferSpec :
    (∀ (pages : List BufPage) (fs ps fo fsz : Nat)
        (writer : Nat → Nat → KStatus × Nat),
      (∀ pg ∈ pages, pg.dirty = false) →
      (IopFlushPageCacheBuffer pages fs false ps fo fsz writer).status =
        KStatus.success ∧
      (IopFlushPageCacheBuffer pages fs false ps fo fsz writer).writerInvoked =
        false) ∧
    (∀ (pages : List BufPage) (ps fo fsz : Nat) (sync : Bool)
        (writer : Nat → Nat → KStatus × Nat),
      0 < ps →
      (∀ pg ∈ pages, pg.inTree = true) →
      fo + pages.length * ps ≤ fsz →
      (pages.all (fun pg => !pg.dirty) = false ∨ sync = true) →
      (kSuccess (writer fo (pages.length * ps)).1 = false ∨
        (writer fo (pages.length * ps)).2 ≠ pages.length * ps) →
      pages ≠ [] →
      let r := IopFlushPageCacheBuffer pages (pages.length * ps) sync ps fo fsz
        writer
      r.writerInvoked = true ∧
      r.status = (if kSuccess (writer fo (pages.length * ps)).1 = false
        then (writer fo (pages.length * ps)).1
        else KStatus.dataLengthMismatch) ∧
      r.fileObjectDirtied =
        decide ((writer fo (pages.length * ps)).2 ≠ pages.length * ps) ∧
      (∀ i, i < pages.length →
        (writer fo (pages.length * ps)).2 -
          (writer fo (pages.length * ps)).2 % ps ≤ i * ps →
        ∀ (hr : i < r.pages.length), (r.pages.get ⟨i, hr⟩).dirty = true)) := by
  constructor
  · intro pages fs ps fo fsz writer h
    have hclean := markCleanPassAllClean ps pages h fs
    constructor <;>
      · simp only [IopFlushPageCacheBuffer, hclean]
        split_ifs <;> simp_all
  · intro pages ps fo fsz sync writer hps htree hfit hdirty hfail hne
    have hbytes := markCleanPassBytes ps hps pages htree
    have hcleaneq := markCleanPassCleanEq ps hps pages htree
    have hlen0 : pages.length ≠ 0 := by
      intro hc
      exact hne (List.length_eq_zero.mp hc)
    have hfs0 : pages.length * ps ≠ 0 := by positivity
    have hnotbig : ¬ (fo + pages.length * ps > fsz) := by omega
    have hnotclean : ¬ ((pages.all fun pg => !pg.dirty) = true ∧
        sync = false) := by
      rcases hdirty with hd | hs
      · rw [hd]
        rintro ⟨hc, -⟩
        cases hc
      · rw [hs]
        rintro ⟨-, hc⟩
        cases hc
    have hkfail : ¬ (kSuccess
        (if kSuccess (writer fo (pages.length * ps)).1 = false
         then (writer fo (pages.length * ps)).1
         else if (writer fo (pages.length * ps)).2 ≠ pages.length * ps
           then KStatus.dataLengthMismatch
           else KStatus.success) = true) := by
      cases hk : kSuccess (writer fo (pages.length * ps)).1 with
      | false => simp [hk]
      | true =>
        have hf : (writer fo (pages.length * ps)).2 ≠ pages.length * ps := by
          rcases hfail with hf0 | hf0
          · rw [hk] at hf0
            cases hf0
          · exact hf0
        simp [kSuccess, hf]
    have hres : IopFlushPageCacheBuffer pages (pages.length * ps) sync ps fo
        fsz writer =
        { status := (if kSuccess (writer fo (pages.length * ps)).1 = false
            then (writer fo (pages.length * ps)).1
            else if (writer fo (pages.length * ps)).2 ≠ pages.length * ps
              then KStatus.dataLengthMismatch
              else KStatus.success)
          pages := IopBufferRedirty
            (IopBufferMarkCleanPass ps pages (pages.length * ps)).1 ps
            ((writer fo (pages.length * ps)).2 -
              (writer fo (pages.length * ps)).2 % ps)
            (pages.length * ps)
          fileObjectDirtied :=
            decide ((writer fo (pages.length * ps)).2 ≠ pages.length * ps)
          writerInvoked := true } := by
      simp only [IopFlushPageCacheBuffer, hbytes, hcleaneq]
      rw [if_neg hnotbig, if_neg hfs0, if_neg hnotclean, if_neg hkfail]
    refine ⟨?_, ?_, ?_, ?_⟩
    · rw [hres]
    · rw [hres]
      by_cases hk : kSuccess (writer fo (pages.length * ps)).1 = false
      · rw [if_pos hk, if_pos hk]
      · have hf2 : (writer fo (pages.length * ps)).2 ≠ pages.length * ps := by
          rcases hfail with hf0 | hf0
          · exact absurd hf0 hk
          · exact hf0
        rw [if_neg hk, if_neg hk, if_pos hf2]
    · rw [hres]
    · intro i hi halign hr
      have hlt : i * ps < pages.length * ps :=
        (Nat.mul_lt_mul_right hps).mpr hi
      revert hr
      rw [hres]
      intro hr
      exact redirtyGetDirty _ ps _ _ i halign hlt hr

/-- Witness for C4: the failing-short-write conclusions evaluated on a
concrete one-page dirty buffer whose writer fails after zero bytes. -/
theorem flushBufferSpecWitness :
    (IopFlushPageCacheBuffer [⟨true, true⟩] 4096 false 4096 0 8192
        (fun _ _ => (KStatus.ioError 3, 0))).status = KStatus.ioError 3 ∧
    (IopFlushPageCacheBuffer [⟨true, true⟩] 4096 false 4096 0 8192
        (fun _ _ => (KStatus.ioError 3, 0))).fileObjectDirtied = true := by
  have H := flushBufferSpec.2 [⟨true, true⟩] 4096 0 8192 false
    (fun _ _ => (KStatus.ioError 3, 0)) (by decide) (by decide) (by decide)
    (Or.inl (by decide)) (Or.inl (by decide)) (by decide)
  exact ⟨by simpa using H.2.1, by simpa using H.2.2.1⟩

/-- Helper: the owner count of a cons. -/
theorem ownerCountCons (e : TrimEntry) (l : List TrimEntry) :
    ownerCount (e :: l) = (if e.pageOwner = true then 1 else 0) + ownerCount l := by
  simp only [ownerCount, List.filter_cons]
  split_ifs <;> simp [Nat.add_comm]

/-- Helper: the removal helper leaves `some (t - owners destroyed)` in the
target and never destroys more owners than the target allows. -/
theorem removeTargetSpec :
    ∀ (l : List TrimEntry) (t : Nat),
      (IopRemovePageCacheEntriesFromList l (some t)).2 =
        some (t - ownerCount (IopRemovePageCacheEntriesFromList l (some t)).1) ∧
      ownerCount (IopRemovePageCacheEntriesFromList l (some t)).1 ≤ t := by
  intro l
  induction l with
  | nil =>
    intro t
    simp [IopRemovePageCacheEntriesFromList, ownerCount]
  | cons e rest ih =>
    intro t
    by_cases ht : t = 0
    · subst ht
      simp [IopRemovePageCacheEntriesFromList, ownerCount]
    · have hne : ¬ ((some t : Option Nat) = some 0) := by simpa using ht
      simp only [IopRemovePageCacheEntriesFromList, hne, if_false]
      split_ifs with h1 h2 h3 h4 h5
      · exact ih t
      · exact ih t
      · exact ih t
      · exact ih t
      · have iht := ih (t - 1)
        constructor
        · show (IopRemovePageCacheEntriesFromList rest (some (t - 1))).2 =
            some (t - ownerCount
              (e :: (IopRemovePageCacheEntriesFromList rest (some (t - 1))).1))
          rw [iht.1, ownerCountCons]
          simp only [if_pos h5]
          congr 1
          have := iht.2
          omega
        · show ownerCount
              (e :: (IopRemovePageCacheEntriesFromList rest (some (t - 1))).1) ≤ t
          rw [ownerCountCons]
          simp only [if_pos h5]
          have := iht.2
          omega
      · have iht := ih t
        constructor
        · show (IopRemovePageCacheEntriesFromList rest (some t)).2 =
            some (t - ownerCount
              (e :: (IopRemovePageCacheEntriesFromList rest (some t)).1))
          rw [ownerCountCons]
          simp only [if_neg h5, Nat.zero_add]
          exact iht.1
        · show ownerCount
              (e :: (IopRemovePageCacheEntriesFromList rest (some t)).1) ≤ t
          rw [ownerCountCons]
          simp only [if_neg h5, Nat.zero_add]
          exact iht.2

/-- Helper: what a true physical-pressure predicate implies. -/
theorem tooBigElim (phys : Nat) (limits : PageCacheLimits) (free : Nat)
    (h : IopIsPageCacheTooBig phys limits free = true) :
    limits.minimumPages < phys ∧ free ≤ limits.headroomPagesTrigger := by
  simp only [IopIsPageCacheTooBig] at h
  split_ifs at h with h1 h2
  omega

/-- Helper: the full behaviour of one eviction-eligible trim call. -/
theorem trimHelper (phys free : Nat) (limits : PageCacheLimits)
    (ul cl : List TrimEntry)
    (hbig : IopIsPageCacheTooBig phys limits free = true) :
    let r := IopTrimPageCache phys limits free ul cl
    r.targetRemoveCount ≤ limits.headroomPagesRetreat - free ∧
    r.targetRemoveCount ≤ phys ∧
    limits.minimumPages ≤ phys - r.targetRemoveCount ∧
    r.remainingTarget = r.targetRemoveCount -
      (ownerCount r.destroyedUnmapped + ownerCount r.destroyedClean) ∧
    ownerCount r.destroyedUnmapped + ownerCount r.destroyedClean ≤
      r.targetRemoveCount ∧
    (ownerCount r.destroyedUnmapped = r.targetRemoveCount →
      r.destroyedClean = []) ∧
    r.finalPhysicalPageCount =
      phys - (ownerCount r.destroyedUnmapped + ownerCount r.destroyedClean) ∧
    limits.minimumPages ≤ r.finalPhysicalPageCount ∧
    (r.pageOutRequested = true ↔
      r.remainingTarget ≠ 0 ∧
        r.finalPhysicalPageCount < limits.minimumPagesTarget) := by
  obtain ⟨hmin, htrig⟩ := tooBigElim phys limits free hbig
  intro r
  have hrdef : r = IopTrimPageCache phys limits free ul cl := rfl
  rw [IopTrimPageCache] at hrdef
  rw [hbig] at hrdef
  simp only [Bool.true_eq_false, if_false] at hrdef
  set t0 := limits.headroomPagesRetreat - free with ht0
  set t1 := if t0 > phys then phys else t0 with ht1
  set t2 := if phys - t1 < limits.minimumPages then phys - limits.minimumPages
    else t1 with ht2
  have ht1le : t1 ≤ t0 ∧ t1 ≤ phys := by
    rw [ht1]
    split <;> omega
  have ht2le : t2 ≤ t1 ∧ limits.minimumPages ≤ phys - t2 := by
    rw [ht2]
    split
    · omega
    · omega
  set out1 := if ul ≠ [] then IopRemovePageCacheEntriesFromList ul (some t2)
    else ([], some t2) with hout1def
  have hout1 : out1.2 = some (t2 - ownerCount out1.1) ∧
      ownerCount out1.1 ≤ t2 := by
    rw [hout1def]
    split
    · exact removeTargetSpec ul t2
    · simp [ownerCount]
  set k := t2 - ownerCount out1.1 with hk
  set out2 := if out1.2 ≠ some 0 then
      IopRemovePageCacheEntriesFromList cl out1.2
    else ([], out1.2) with hout2def
  have hout2 : out2.2 = some (k - ownerCount out2.1) ∧
      ownerCount out2.1 ≤ k := by
    rw [hout2def]
    split
    · rw [hout1.1]
      exact removeTargetSpec cl k
    · rename_i hcond
      rw [not_not] at hcond
      have hkz : k = 0 := by
        rw [hout1.1] at hcond
        simpa using hcond
      dsimp only
      rw [hout1.1]
      simp [ownerCount, hkz]
  have hrfields : r.targetRemoveCount = t2 ∧
      r.destroyedUnmapped = out1.1 ∧ r.destroyedClean = out2.1 ∧
      r.remainingTarget = out2.2.getD 0 ∧
      r.finalPhysicalPageCount =
        phys - (ownerCount out1.1 + ownerCount out2.1) ∧
      r.pageOutRequested = decide (out2.2.getD 0 ≠ 0 ∧
        phys - (ownerCount out1.1 + ownerCount out2.1) <
          limits.minimumPagesTarget) := by
    rw [hrdef]
    exact ⟨rfl, rfl, rfl, rfl, rfl, rfl⟩
  obtain ⟨hf1, hf2, hf3, hf4, hf5, hf6⟩ := hrfields
  have hrem : r.remainingTarget = t2 - (ownerCount out1.1 + ownerCount out2.1) := by
    rw [hf4, hout2.1]
    simp only [Option.getD_some]
    omega
  refine ⟨?_, ?_, ?_, ?_, ?_, ?_, ?_, ?_, ?_⟩
  · rw [hf1]
    omega
  · rw [hf1]
    omega
  · rw [hf1]
    omega
  · rw [hrem, hf1, hf2, hf3]
  · rw [hf1, hf2, hf3]
    omega
  · intro hall
    rw [hf2, hf1] at hall
    rw [hf3, hout2def]
    have hcond : ¬ (out1.2 ≠ some 0) := by
      rw [not_not, hout1.1]
      have hkz : k = 0 := by
        rw [hk, hall]
        omega
      rw [hkz]
    rw [if_neg hcond]
  · rw [hf5, hf2, hf3]
  · rw [hf5]
    omega
  · rw [hf6, hrem, hf5]
    constructor
    · intro h
      have := of_decide_eq_true h
      constructor
      · rw [hout2.1] at this
        simp only [Option.getD_some] at this
        omega
      · exact this.2
    · intro h
      apply decide_eq_true
      constructor
      · rw [hout2.1]
        simp only [Option.getD_some]
        omega
      · exact h.2

/-- C7 counterexample: limits from 1000 total pages (minimum 70, trigger
100, retreat 150, minimum target 330), 100 cached pages, 50 free pages and
30 evictable owners: the eviction target 30 is met exactly, the cache ends
at 70 pages — far below the minimum pages target 330 — yet no paging out is
requested, because the code additionally requires the remaining removal
target to be non-zero. -/
theorem trimPageOutCounterexample :
    (IopTrimPageCache 100 (IopInitializePageCacheLimits 1000) 50
      (List.replicate 30 evictableOwner) []).finalPhysicalPageCount = 70 ∧
    (IopTrimPageCache 100 (IopInitializePageCacheLimits 1000) 50
      (List.replicate 30 evictableOwner) []).finalPhysicalPageCount <
      (IopInitializePageCacheLimits 1000).minimumPagesTarget ∧
    (IopTrimPageCache 100 (IopInitializePageCacheLimits 1000) 50
      (List.replicate 30 evictableOwner) []).pageOutRequested = false := by
  decide

/-- C7 (amended: paging out is requested only when the eviction ALSO fell
short of its removal target, not whenever the cache ends below its minimum
pages target): under physical pressure the trim computes an eviction target
of retreat_pages minus free_physical_pages, clamps it to the current
physical page count and so that the cache never drops below minimum_pages,
evicts from the clean-unmapped LRU before the clean LRU (when the first
list meets the whole target the second is untouched), counts only
page-owner entries toward the target, and afterwards requests paging out
exactly when the remaining removal target is non-zero and the cache ended
below its minimum pages target; in particular with retreat 150, minimum 70
and 50 free physical pages it frees at most 100 frames and leaves at least
70 physical pages. -/
theorem trimPageCacheSpec (phys free : Nat) (limits : PageCacheLimits)
    (ul cl : List TrimEntry)
    (hbig : IopIsPageCacheTooBig phys limits free = true) :
    (let r := IopTrimPageCache phys limits free ul cl
     r.targetRemoveCount ≤ limits.headroomPagesRetreat - free ∧
     r.targetRemoveCount ≤ phys ∧
     limits.minimumPages ≤ phys - r.targetRemoveCount ∧
     r.remainingTarget = r.targetRemoveCount -
       (ownerCount r.destroyedUnmapped + ownerCount r.destroyedClean) ∧
     ownerCount r.destroyedUnmapped + ownerCount r.destroyedClean ≤
       r.targetRemoveCount ∧
     (ownerCount r.destroyedUnmapped = r.targetRemoveCount →
       r.destroyedClean = []) ∧
     r.finalPhysicalPageCount =
       phys - (ownerCount r.destroyedUnmapped + ownerCount r.destroyedClean) ∧
     limits.minimumPages ≤ r.finalPhysicalPageCount ∧
     (r.pageOutRequested = true ↔
       r.remainingTarget ≠ 0 ∧
         r.finalPhysicalPageCount < limits.minimumPagesTarget)) ∧
    (∀ (phys2 : Nat) (ul2 cl2 : List TrimEntry),
      (IopInitializePageCacheLimits 1000).minimumPages < phys2 →
      let r2 := IopTrimPageCache phys2 (IopInitializePageCacheLimits 1000) 50
        ul2 cl2
      ownerCount r2.destroyedUnmapped + ownerCount r2.destroyedClean ≤ 100 ∧
      70 ≤ r2.finalPhysicalPageCount) := by
  constructor
  · exact trimHelper phys free limits ul cl hbig
  · intro phys2 ul2 cl2 hphys2
    have hmin : (IopInitializePageCacheLimits 1000).minimumPages = 70 := by
      decide
    have hretreat : (IopInitializePageCacheLimits 1000).headroomPagesRetreat =
        150 := by decide
    have hbig2 : IopIsPageCacheTooBig phys2 (IopInitializePageCacheLimits 1000)
        50 = true := by
      simp only [IopIsPageCacheTooBig, hmin]
      have htrig : (IopInitializePageCacheLimits 1000).headroomPagesTrigger =
          100 := by decide
      rw [htrig]
      rw [if_neg (by omega), if_neg (by omega)]
    have H := trimHelper phys2 50 (IopInitializePageCacheLimits 1000) ul2 cl2
      hbig2
    intro r2
    have hr2 : r2 = IopTrimPageCache phys2 (IopInitializePageCacheLimits 1000)
        50 ul2 cl2 := rfl
    rw [hr2]
    constructor
    · have h1 := H.1
      have h5 := H.2.2.2.2.1
      rw [hretreat] at h1
      omega
    · have h8 := H.2.2.2.2.2.2.2.1
      rw [hmin] at h8
      exact h8

/-- Witness for C7: the general bounds evaluated on a concrete trim call
with 500 cached pages, 50 free pages and 30 evictable owners on the clean
list. -/
theorem trimPageCacheSpecWitness :
    (IopTrimPageCache 500 (IopInitializePageCacheLimits 1000) 50 []
      (List.replicate 30 evictableOwner)).finalPhysicalPageCount =
      500 - (ownerCount (IopTrimPageCache 500 (IopInitializePageCacheLimits 1000)
          50 [] (List.replicate 30 evictableOwner)).destroyedUnmapped +
        ownerCount (IopTrimPageCache 500 (IopInitializePageCacheLimits 1000)
          50 [] (List.replicate 30 evictableOwner)).destroyedClean) ∧
    70 ≤ (IopTrimPageCache 500 (IopInitializePageCacheLimits 1000) 50 []
      (List.replicate 30 evictableOwner)).finalPhysicalPageCount := by
  have H := trimPageCacheSpec 500 50 (IopInitializePageCacheLimits 1000) []
    (List.replicate 30 evictableOwner) (by decide)
  refine ⟨H.1.2.2.2.2.2.2.1, ?_⟩
  have := H.1.2.2.2.2.2.2.2.1
  have hmin : (IopInitializePageCacheLimits 1000).minimumPages = 70 := by
    decide
  rw [hmin] at this
  exact this

end PageCache
